import Mathlib

/-!
A verification development for the `git_to_image` repository.

The Python sources are shallowly embedded in Lean: every analyzer or CLI
function that the claims touch is translated into an executable Lean
definition over explicit inputs.  External API responses (GitHub
repositories, commits, pull requests, Gemini replies) are modelled as
explicit input data; a call that can raise a network or API exception is
modelled with `Except Unit` (`.error ()` standing for a raised exception).
Python `float` arithmetic is modelled exactly over `Rat`; Python's
`round(x, n)` (round-half-to-even) is `pyRound`.  Python dictionaries that
flow into the JSON profile are modelled as `JVal` objects whose field
lists follow the insertion order of the source.  The global `random`
module is modelled as an explicit `RandSrc` value threaded through the
functions that consume randomness.
-/

/-- A JSON value, as produced by `json.dump` / consumed by `json.load`
on the profile dictionaries of `github_analyzer.py`.  Numbers are modelled
exactly as rationals. -/
inductive JVal where
  | null
  | jbool (b : Bool)
  | num (q : Rat)
  | str (s : String)
  | arr (xs : List JVal)
  | obj (fields : List (String × JVal))

/-- Python `dict.get(key)` / `key in dict` on an embedded dictionary:
first binding of `key` (keys are unique in the embedded dictionaries). -/
def jget (v : JVal) (key : String) : Option JVal :=
  match v with
  | .obj fields => fields.lookup key
  | _ => none

/-- Extract a number. -/
def jnum? : JVal → Option Rat
  | .num q => some q
  | _ => none

/-- Extract a string. -/
def jstr? : JVal → Option String
  | .str s => some s
  | _ => none

/-- Extract a boolean. -/
def jbool? : JVal → Option Bool
  | .jbool b => some b
  | _ => none

/-- The fields of an object (`[]` for any other value, matching the
`profile.get(k, {})` defaults used by the source). -/
def jfields : Option JVal → List (String × JVal)
  | some (.obj fields) => fields
  | _ => []

/-- The elements of an array (`[]` for any other value, matching the
`profile.get(k, [])` defaults used by the source). -/
def jelems : Option JVal → List JVal
  | some (.arr xs) => xs
  | _ => []

/-- The keys of an object. -/
def jkeys (v : JVal) : List String :=
  match v with
  | .obj fields => fields.map Prod.fst
  | _ => []

/-!
## The JSON file layer

`analyze_user_profile` persists the profile with `json.dump` and
`load_existing_profile` reads it back with `json.load`.  The byte-level
grammar of the external `json` library is modelled at the token level:
`jencode` serializes a `JVal` into a stream of JSON tokens and `jparse`
is a recursive-descent parser over such a stream, mirroring how the
library writes and re-reads the file.
-/

/-- A lexical token of a JSON document. -/
inductive JTok where
  | lbrace | rbrace | lbrack | rbrack | colon | comma
  | tnull
  | tbool (b : Bool)
  | tnum (q : Rat)
  | tstr (s : String)
deriving DecidableEq, Repr

mutual

/-- Serialize a JSON value into its token stream. -/
def jencode : JVal → List JTok
  | .null => [.tnull]
  | .jbool b => [.tbool b]
  | .num q => [.tnum q]
  | .str s => [.tstr s]
  | .arr xs => .lbrack :: jencodeArr xs
  | .obj fields => .lbrace :: jencodeObj fields

/-- Serialize the elements of an array (after the opening bracket). -/
def jencodeArr : List JVal → List JTok
  | [] => [.rbrack]
  | x :: xs => jencode x ++ jencodeArrRest xs

/-- Serialize the remaining elements of an array, comma-separated. -/
def jencodeArrRest : List JVal → List JTok
  | [] => [.rbrack]
  | x :: xs => .comma :: (jencode x ++ jencodeArrRest xs)

/-- Serialize the fields of an object (after the opening brace). -/
def jencodeObj : List (String × JVal) → List JTok
  | [] => [.rbrace]
  | (k, v) :: fields => .tstr k :: .colon :: (jencode v ++ jencodeObjRest fields)

/-- Serialize the remaining fields of an object, comma-separated. -/
def jencodeObjRest : List (String × JVal) → List JTok
  | [] => [.rbrace]
  | (k, v) :: fields => .comma :: .tstr k :: .colon :: (jencode v ++ jencodeObjRest fields)

end

mutual

/-- Recursive-descent parser for one JSON value; `fuel` bounds the
recursion depth and is in practice the token count. -/
def jparseVal : Nat → List JTok → Option (JVal × List JTok)
  | 0, _ => none
  | _ + 1, [] => none
  | fuel + 1, t :: ts =>
    match t with
    | .tnull => some (.null, ts)
    | .tbool b => some (.jbool b, ts)
    | .tnum q => some (.num q, ts)
    | .tstr s => some (.str s, ts)
    | .lbrack =>
      match ts with
      | .rbrack :: ts2 => some (.arr [], ts2)
      | _ =>
        match jparseVal fuel ts with
        | none => none
        | some (v, ts2) =>
          match jparseArrRest fuel ts2 with
          | none => none
          | some (vs, ts3) => some (.arr (v :: vs), ts3)
    | .lbrace =>
      match ts with
      | .rbrace :: ts2 => some (.obj [], ts2)
      | .tstr k :: .colon :: ts2 =>
        match jparseVal fuel ts2 with
        | none => none
        | some (v, ts3) =>
          match jparseObjRest fuel ts3 with
          | none => none
          | some (fields, ts4) => some (.obj ((k, v) :: fields), ts4)
      | _ => none
    | _ => none

/-- Parse the remainder of an array: a closing bracket or a comma and a value. -/
def jparseArrRest : Nat → List JTok → Option (List JVal × List JTok)
  | 0, _ => none
  | _ + 1, .rbrack :: ts => some ([], ts)
  | fuel + 1, .comma :: ts =>
    match jparseVal fuel ts with
    | none => none
    | some (v, ts2) =>
      match jparseArrRest fuel ts2 with
      | none => none
      | some (vs, ts3) => some (v :: vs, ts3)
  | _, _ => none

/-- Parse the remainder of an object: a closing brace or a comma and a field. -/
def jparseObjRest : Nat → List JTok → Option (List (String × JVal) × List JTok)
  | 0, _ => none
  | _ + 1, .rbrace :: ts => some ([], ts)
  | fuel + 1, .comma :: .tstr k :: .colon :: ts =>
    match jparseVal fuel ts with
    | none => none
    | some (v, ts2) =>
      match jparseObjRest fuel ts2 with
      | none => none
      | some (fields, ts3) => some ((k, v) :: fields, ts3)
  | _, _ => none

end

/-- Parse a whole token stream as one JSON document (`json.load`):
`none` models a raised `JSONDecodeError`. -/
def jparse (ts : List JTok) : Option JVal :=
  match jparseVal ts.length ts with
  | some (v, []) => some v
  | _ => none

/-- The token stream of a value is never empty. -/
theorem jencode_ne_nil (v : JVal) : jencode v ≠ [] := by
  cases v <;> simp [jencode]

/-- The first token of an encoded value is never a closing bracket
(used to show the parser takes the non-empty-array branch). -/
theorem jencode_head_ne_rbrack (v : JVal) (rest : List JTok) :
    jencode v ++ rest ≠ JTok.rbrack :: (jencode v ++ rest).tail := by
  cases v <;> simp [jencode]

theorem length_jencodeArrRest_pos (xs : List JVal) :
    0 < (jencodeArrRest xs).length := by
  cases xs <;> simp [jencodeArrRest]

theorem length_jencodeObjRest_pos (fields : List (String × JVal)) :
    0 < (jencodeObjRest fields).length := by
  cases fields with
  | nil => simp [jencodeObjRest]
  | cons f fs => cases f; simp [jencodeObjRest]

theorem length_jencode_pos (v : JVal) : 0 < (jencode v).length := by
  cases v <;> simp [jencode]

/-- Soundness of the parser on encoder output, for every fuel budget at
least the length of the encoded prefix. -/
theorem jparse_sound (fuel : Nat) :
    (∀ v rest, (jencode v).length ≤ fuel →
      jparseVal fuel (jencode v ++ rest) = some (v, rest)) ∧
    (∀ xs rest, (jencodeArrRest xs).length ≤ fuel →
      jparseArrRest fuel (jencodeArrRest xs ++ rest) = some (xs, rest)) ∧
    (∀ fields rest, (jencodeObjRest fields).length ≤ fuel →
      jparseObjRest fuel (jencodeObjRest fields ++ rest) = some (fields, rest)) := by
  induction fuel with
  | zero =>
    refine ⟨fun v rest h => ?_, fun xs rest h => ?_, fun fields rest h => ?_⟩
    · have hp := length_jencode_pos v; omega
    · have hp := length_jencodeArrRest_pos xs; omega
    · have hp := length_jencodeObjRest_pos fields; omega
  | succ fuel ih =>
    obtain ⟨ihV, ihA, ihO⟩ := ih
    refine ⟨fun v rest h => ?_, fun xs rest h => ?_, fun fields rest h => ?_⟩
    · cases v with
      | null => simp [jencode, jparseVal]
      | jbool b => simp [jencode, jparseVal]
      | num q => simp [jencode, jparseVal]
      | str s => simp [jencode, jparseVal]
      | arr xs =>
        cases xs with
        | nil => simp [jencode, jencodeArr, jparseVal]
        | cons x xs =>
          have hx : (jencode x).length ≤ fuel := by
            have := length_jencodeArrRest_pos xs
            simp [jencode, jencodeArr] at h
            omega
          have hxs : (jencodeArrRest xs).length ≤ fuel := by
            have := length_jencode_pos x
            simp [jencode, jencodeArr] at h
            omega
          have hV := ihV x (jencodeArrRest xs ++ rest) hx
          have hA := ihA xs rest hxs
          obtain ⟨t0, ts0, hhead⟩ : ∃ t0 ts0, jencode x = t0 :: ts0 := by
            cases hx2 : jencode x with
            | nil => exact absurd hx2 (jencode_ne_nil x)
            | cons a b => exact ⟨a, b, rfl⟩
          have ht0 : t0 ≠ JTok.rbrack := by
            cases x <;> simp [jencode] at hhead <;> simp [← hhead.1]
          rw [hhead] at hV
          simp only [List.cons_append] at hV
          simp only [jencode, jencodeArr, List.cons_append, List.append_assoc, hhead]
          cases t0 with
          | rbrack => exact absurd rfl ht0
          | rbrace => simp [jparseVal, hV, hA]
          | lbrace => simp [jparseVal, hV, hA]
          | lbrack => simp [jparseVal, hV, hA]
          | tnull => simp [jparseVal, hV, hA]
          | tbool b => simp [jparseVal, hV, hA]
          | tnum q => simp [jparseVal, hV, hA]
          | tstr s => simp [jparseVal, hV, hA]
          | colon => simp [jparseVal, hV, hA]
          | comma => simp [jparseVal, hV, hA]
      | obj fields =>
        cases fields with
        | nil => simp [jencode, jencodeObj, jparseVal]
        | cons f fs =>
          obtain ⟨k, v⟩ := f
          have hv : (jencode v).length ≤ fuel := by
            have := length_jencodeObjRest_pos fs
            simp [jencode, jencodeObj] at h
            omega
          have hfs : (jencodeObjRest fs).length ≤ fuel := by
            have := length_jencode_pos v
            simp [jencode, jencodeObj] at h
            omega
          have hV := ihV v (jencodeObjRest fs ++ rest) hv
          have hO := ihO fs rest hfs
          simp only [jencode, jencodeObj, List.cons_append, List.append_assoc]
          rw [jparseVal]
          simp [hV, hO]
    · cases xs with
      | nil => simp [jencodeArrRest, jparseArrRest]
      | cons x xs =>
        have hx : (jencode x).length ≤ fuel := by
          have := length_jencodeArrRest_pos xs
          simp [jencodeArrRest] at h
          omega
        have hxs : (jencodeArrRest xs).length ≤ fuel := by
          have := length_jencode_pos x
          simp [jencodeArrRest] at h
          omega
        have hV := ihV x (jencodeArrRest xs ++ rest) hx
        have hA := ihA xs rest hxs
        simp only [jencodeArrRest, List.cons_append, List.append_assoc]
        rw [jparseArrRest]
        simp [hV, hA]
    · cases fields with
      | nil => simp [jencodeObjRest, jparseObjRest]
      | cons f fs =>
        obtain ⟨k, v⟩ := f
        have hv : (jencode v).length ≤ fuel := by
          have := length_jencodeObjRest_pos fs
          simp [jencodeObjRest] at h
          omega
        have hfs : (jencodeObjRest fs).length ≤ fuel := by
          have := length_jencode_pos v
          simp [jencodeObjRest] at h
          omega
        have hV := ihV v (jencodeObjRest fs ++ rest) hv
        have hO := ihO fs rest hfs
        simp only [jencodeObjRest, List.cons_append, List.append_assoc]
        rw [jparseObjRest]
        simp [hV, hO]

/-- `json.load` after `json.dump` is the identity on every JSON value. -/
theorem jparse_jencode (v : JVal) : jparse (jencode v) = some v := by
  have h := (jparse_sound (jencode v).length).1 v [] le_rfl
  rw [List.append_nil] at h
  simp [jparse, h]

/-!
## Numeric, string and randomness helpers
-/

/-- Round half to even: the rounding mode of Python's builtin `round`
(the sources are modelled over exact rationals). -/
def roundHalfEven (q : Rat) : Int :=
  let f := ⌊q⌋
  if q - f < 1/2 then f
  else if (1 : Rat)/2 < q - f then f + 1
  else if f % 2 = 0 then f else f + 1

/-- Python `round(x, nd)`. -/
def pyRound (q : Rat) (nd : Nat) : Rat :=
  (roundHalfEven (q * 10 ^ nd) : Rat) / 10 ^ nd

/-- Python `str.lower()`; the analyzed data is ASCII, where `Char.toLower`
agrees with Python's lower-casing. -/
def lowerStr (s : String) : String := ⟨s.data.map Char.toLower⟩

/-- Does the character list contain `needle` as a contiguous run? -/
def charsContain (needle : List Char) : List Char → Bool
  | [] => needle.isEmpty
  | c :: cs => needle.isPrefixOf (c :: cs) || charsContain needle cs

/-- Python's substring test `needle in hay`. -/
def containsSub (hay needle : String) : Bool := charsContain needle.data hay.data

/-- The state of Python's global `random` module, modelled as the streams
of values its primitives consume: each `random.choice(xs)` call takes the
next entry of `choices` (used modulo `xs.length`) as the chosen index, and
each `random.random()` call takes the next entry of `uniforms` (a value in
`[0,1)`). -/
structure RandSrc where
  choices : List Nat
  uniforms : List Rat
deriving DecidableEq, Repr

/-- `random.choice(xs)` on a list of strings. -/
def randChoice (xs : List String) (r : RandSrc) : String × RandSrc :=
  (xs.getD ((r.choices.headD 0) % xs.length) "", ⟨r.choices.tail, r.uniforms⟩)

/-- `random.random()`. -/
def randUniform (r : RandSrc) : Rat × RandSrc :=
  (r.uniforms.headD 0, ⟨r.choices, r.uniforms.tail⟩)

/-!
## `github_analyzer.get_contribution_style`

Inputs: the repository list returned by `user.get_repos(sort="updated")`.
`recent` is the test `repo.updated_at >= time_window_start` (the loop
breaks at the first repository failing it), `own` is
`repo.owner.login == user.login`, `fork` is `repo.fork`, and `commits` is
the outcome of `repo.get_commits(author=user, since=time_window_start)`
(`.error ()` models a raised exception, which the surrounding `try` turns
into skipping the repository).  For each commit, `message` is
`commit.commit.message` and `files` is the observed `len(commit.files)`
(`0` when `commit.files` is falsy, `none` when accessing it raised, in
which case nothing is appended to `commit_sizes`).
-/

/-- One commit as seen by `get_contribution_style`. -/
structure CommitC where
  message : String
  files : Option Nat
deriving DecidableEq, Repr

/-- One repository as seen by `get_contribution_style`. -/
structure RepoS where
  recent : Bool
  own : Bool
  fork : Bool
  commits : Except Unit (List CommitC)
deriving Repr

/-- The loop counters of `get_contribution_style`. -/
structure CSAcc where
  totalCommits : Nat
  totalRepos : Nat
  ownRepos : Nat
  forkRepos : Nat
  commitSizes : List Nat
  commitMessages : List String
deriving DecidableEq, Repr

/-- The repository loop of `get_contribution_style` (lines 168-197):
breaks at the first stale repository, counts every processed repository,
and on a commit-fetch exception skips the repository's commit data. -/
def csLoop : List RepoS → CSAcc → CSAcc
  | [], acc => acc
  | r :: rs, acc =>
    if !r.recent then acc
    else
      let acc1 : CSAcc :=
        { acc with
          totalRepos := acc.totalRepos + 1
          ownRepos := acc.ownRepos + (if r.own then 1 else 0)
          forkRepos := acc.forkRepos + (if r.fork then 1 else 0) }
      let acc2 : CSAcc :=
        match r.commits with
        | .error _ => acc1
        | .ok cs =>
          { acc1 with
            totalCommits := acc1.totalCommits + cs.length
            commitMessages := acc1.commitMessages ++ (cs.take 10).map (·.message)
            commitSizes := acc1.commitSizes ++ (cs.take 10).filterMap (·.files) }
      csLoop rs acc2

/-- The conventional-commits list and its regular expression
`r'^(feat|fix|docs|style|refactor|test|chore)(\(.+\))?: '`. -/
def ccKeywords : List String :=
  ["feat", "fix", "docs", "style", "refactor", "test", "chore"]

/-- Scan for the closing `"): "` of the optional scope group, allowing any
non-empty run of non-newline characters before it (the backtracking of
`\(.+\)` under `re.match`, where `.` does not match a newline). -/
def ccCloseScan : List Char → Bool
  | ')' :: ':' :: ' ' :: _ => true
  | c :: cs => if c = '\n' then false else ccCloseScan cs
  | [] => false

/-- After the opening parenthesis: at least one non-newline character,
then (possibly later) `"): "`. -/
def ccAfterParen : List Char → Bool
  | [] => false
  | c :: cs => if c = '\n' then false else ccCloseScan cs

/-- `re.match(r'^(feat|fix|docs|style|refactor|test|chore)(\(.+\))?: ', msg.lower())`
as a boolean: the lower-cased message starts with a keyword, then either
directly a colon and a space, or a parenthesised non-empty scope followed
by a colon and a space. -/
def matchConventional (msg : String) : Bool :=
  let cs := (lowerStr msg).data
  ccKeywords.any fun kw =>
    kw.data.isPrefixOf cs &&
      (match cs.drop kw.length with
       | ':' :: ' ' :: _ => true
       | '(' :: rest => ccAfterParen rest
       | _ => false)

/-- One comparison step of Python's `max`: a later entry replaces the
running best only on a strictly greater value. -/
def pyMaxStep (best kv : String × Rat) : String × Rat :=
  if best.2 < kv.2 then kv else best

/-- Python `max(d, key=d.get)` over the insertion-ordered pairs of a
dict: the first key whose value is maximal. -/
def pyMaxKey (pairs : List (String × Rat)) : String :=
  match pairs with
  | [] => ""
  | p :: ps => (ps.foldl pyMaxStep p).1

/-- `get_contribution_style` (lines 154-242): counters from the
repository loop, the four style scores, and the returned dictionary. -/
def getContributionStyle (repos : List RepoS) : JVal :=
  let acc := csLoop repos ⟨0, 0, 0, 0, [], []⟩
  let avgMsgLength : Rat :=
    ((acc.commitMessages.map String.length).sum : Rat) / (max acc.commitMessages.length 1 : Nat)
  let ccRatio : Rat :=
    (acc.commitMessages.countP matchConventional : Rat) / (max acc.commitMessages.length 1 : Nat)
  let avgCommitSize : Rat :=
    (acc.commitSizes.sum : Rat) / (max acc.commitSizes.length 1 : Nat)
  let soloScore : Rat :=
    ((acc.ownRepos : Rat) / (max acc.totalRepos 1 : Nat)) * (7/10)
      + (1 - (acc.forkRepos : Rat) / (max acc.totalRepos 1 : Nat)) * (3/10)
  let collaboratorScore : Rat :=
    ((acc.forkRepos : Rat) / (max acc.totalRepos 1 : Nat)) * (6/10)
      + (min ((acc.totalCommits : Rat) / 50) 1) * (4/10)
  let architectScore : Rat :=
    (min (avgCommitSize / 5) 1) * (4/10)
      + (min (avgMsgLength / 50) 1) * (3/10)
      + ccRatio * (3/10)
  let refinedScore : Rat :=
    ccRatio * (6/10) + (1 - |avgCommitSize - 3| / 10) * (4/10)
  let styleScores : List (String × Rat) :=
    [("Solo Creator", soloScore), ("Collaborator", collaboratorScore),
     ("Architect", architectScore), ("Refined Developer", refinedScore)]
  let primaryStyle := pyMaxKey styleScores
  .obj
    [("primary_style", .str primaryStyle),
     ("style_scores", .obj (styleScores.map fun p => (p.1, .num p.2))),
     ("metrics", .obj
       [("total_commits", .num acc.totalCommits),
        ("total_repos", .num acc.totalRepos),
        ("own_repos", .num acc.ownRepos),
        ("fork_repos", .num acc.forkRepos),
        ("avg_commit_size", .num (pyRound avgCommitSize 1)),
        ("avg_msg_length", .num (pyRound avgMsgLength 1)),
        ("conventional_commits_ratio", .num (pyRound ccRatio 2))])]

/-!
## `github_analyzer.get_language_distribution`

Inputs: the repository list from `user.get_repos(sort="updated")`, each
with the `updated_at`-within-window flag and the outcome of
`repo.get_languages()`.  There is no `try`/`except` in this function: a
raised exception propagates to the caller.
-/

/-- One repository as seen by `get_language_distribution`. -/
structure RepoL where
  recent : Bool
  langs : Except Unit (List (String × Nat))
deriving Repr

/-- `Counter` update: `language_bytes[lang] += byte_count` (a new key is
appended, an existing key accumulated in place). -/
def counterAdd (c : List (String × Nat)) (k : String) (v : Nat) : List (String × Nat) :=
  match c with
  | [] => [(k, v)]
  | (k', v') :: rest =>
    if k' = k then (k', v' + v) :: rest else (k', v') :: counterAdd rest k v

/-- The repository loop of `get_language_distribution` (lines 56-65):
breaks at the first stale repository and accumulates language byte
counts; a `get_languages` exception propagates (no handler). -/
def ldLoop : List RepoL → List (String × Nat) → Except Unit (List (String × Nat))
  | [], c => .ok c
  | r :: rs, c =>
    if !r.recent then .ok c
    else
      match r.langs with
      | .error e => .error e
      | .ok ls => ldLoop rs (ls.foldl (fun acc p => counterAdd acc p.1 p.2) c)

/-- `get_language_distribution` (lines 49-71): percentage of bytes per
language over repositories updated inside the window; `{}` when the total
byte count is zero. -/
def getLanguageDistribution (repos : List RepoL) : Except Unit (List (String × Rat)) := do
  let c ← ldLoop repos []
  let totalBytes := (c.map (·.2)).sum
  if totalBytes = 0 then
    return []
  else
    return c.map fun p => (p.1, ((p.2 : Rat) / (totalBytes : Nat)) * 100)

/-!
## `github_analyzer.get_commit_cadence`

Inputs: the repositories from `user.get_repos()` (each with its name and
the outcome of `repo.get_commits(author=user, since=time_window_start)`),
the `repo_names` filter list, and the window size.  Commit dates
(`commit.commit.author.date.date()`) are modelled as integer day numbers;
the `since` argument guarantees they lie inside the window.
-/

/-- One repository as seen by `get_commit_cadence`. -/
structure RepoK where
  name : String
  commits : Except Unit (List Int)
deriving Repr

/-- `daily_commits[commit_date] = daily_commits.get(commit_date, 0) + 1`
on an insertion-ordered dictionary. -/
def dailyAdd (daily : List (Int × Nat)) (d : Int) : List (Int × Nat) :=
  match daily with
  | [] => [(d, 1)]
  | (d', n) :: rest =>
    if d' = d then (d', n + 1) :: rest else (d', n) :: dailyAdd rest d

/-- The repository loop of `get_commit_cadence` (lines 260-273): skips
repositories not in `repo_names`, skips a repository whose commit fetch
raised, and otherwise counts its commits per day. -/
def kLoop : List RepoK → List String → List (Int × Nat) × Nat → List (Int × Nat) × Nat
  | [], _, st => st
  | r :: rs, names, (daily, total) =>
    if r.name ∉ names then kLoop rs names (daily, total)
    else
      match r.commits with
      | .error _ => kLoop rs names (daily, total)
      | .ok ds => kLoop rs names (ds.foldl dailyAdd daily, total + ds.length)

/-- The variance of the per-active-day commit counts (lines 284-286):
mean and population variance of `daily_commits.values()`. -/
def cadenceVariance (counts : List Nat) : Rat :=
  ((counts.map fun x =>
      ((x : Rat) - ((counts.sum : Nat) : Rat) / (counts.length : Nat)) ^ 2).sum)
    / (counts.length : Nat)

/-- `get_commit_cadence` (lines 244-296). -/
def getCommitCadence (repos : List RepoK) (repoNames : List String)
    (daysWindow : Nat) : JVal :=
  let st := kLoop repos repoNames ([], 0)
  let daily := st.1
  let totalCommits := st.2
  if daily.isEmpty then
    .obj [("frequency", .num 0), ("consistency", .num 0), ("total_commits", .num 0)]
  else
    let activeDays := daily.length
    let frequency : Rat := (totalCommits : Rat) / (daysWindow : Nat)
    let consistency : Rat :=
      if 1 < activeDays then 1 / (1 + cadenceVariance (daily.map (·.2)))
      else if 0 < totalCommits then 1/2 else 0
    .obj
      [("frequency", .num (pyRound frequency 3)),
       ("consistency", .num (pyRound consistency 3)),
       ("total_commits", .num totalCommits),
       ("active_days", .num activeDays)]

/-!
## `github_analyzer.analyze_code_originality`

Inputs: the outcome of `user.get_repos()` (the whole loop is wrapped in a
`try` whose handler returns `{}`), each repository with its
within-window flag (`continue`, not `break`, on a stale repository),
ownership, fork status, stars and forks.
-/

/-- One repository as seen by `analyze_code_originality`. -/
structure RepoO where
  recent : Bool
  own : Bool
  fork : Bool
  stars : Nat
  forks : Nat
deriving DecidableEq, Repr

/-- `analyze_code_originality` (lines 388-468). -/
def analyzeCodeOriginality (reposFetch : Except Unit (List RepoO)) : JVal :=
  match reposFetch with
  | .error _ => .obj []
  | .ok repos =>
    let rs := repos.filter (·.recent)
    let ownedRepos := rs.countP (·.own)
    let forkedRepos := rs.countP (fun r => r.own && r.fork)
    let contributedRepos := rs.countP (fun r => !r.own)
    let createdFromScratch := rs.countP (fun r => r.own && !r.fork)
    let totalOwnedStars := ((rs.filter (·.own)).map (·.stars)).sum
    let totalOwnedForks := ((rs.filter (·.own)).map (·.forks)).sum
    let totalRepos := ownedRepos + contributedRepos
    if totalRepos = 0 then .obj []
    else
      let originalityScore : Rat := (createdFromScratch : Rat) / (max totalRepos 1 : Nat)
      let ownershipRatio : Rat := (ownedRepos : Rat) / (max totalRepos 1 : Nat)
      let impactScore : Rat :=
        ((totalOwnedStars : Rat) + (totalOwnedForks : Rat) * 2) / (max ownedRepos 1 : Nat)
      let creatorType : String :=
        if 7/10 < originalityScore ∧ 6/10 < ownershipRatio then "Visionary Founder"
        else if 4/10 < originalityScore ∧ 4/10 < ownershipRatio then "Project Creator"
        else if 6/10 < ownershipRatio then "Repository Owner"
        else if ownedRepos * 2 < contributedRepos then "Community Contributor"
        else "Balanced Developer"
      .obj
        [("creator_type", .str creatorType),
         ("owned_repos", .num ownedRepos),
         ("forked_repos", .num forkedRepos),
         ("contributed_repos", .num contributedRepos),
         ("created_from_scratch", .num createdFromScratch),
         ("originality_score", .num originalityScore),
         ("ownership_ratio", .num ownershipRatio),
         ("impact_score", .num impactScore),
         ("total_owned_stars", .num totalOwnedStars),
         ("total_owned_forks", .num totalOwnedForks)]

/-!
## `github_analyzer.classify_pr_type`

Inputs: the pull request's title and the outcome of `pr.get_files()`
(a list of filenames; `.error ()` models a raised exception, handled by
`except: pass`, after which the function returns `'other'`).
-/

/-- One pull request as seen by `classify_pr_type`. -/
structure PRData where
  title : String
  files : Except Unit (List String)
deriving Repr

/-- `classify_pr_type` (lines 728-767). -/
def classifyPrType (pr : PRData) : String :=
  let title := lowerStr pr.title
  if ["feat:", "feature:", "add", "implement", "new"].any (containsSub title) then "feature"
  else if ["fix:", "bug:", "hotfix:", "patch:", "resolve"].any (containsSub title) then "fix"
  else if ["docs:", "doc:", "readme", "documentation"].any (containsSub title) then "docs"
  else if ["test:", "tests:", "testing", "spec:"].any (containsSub title) then "test"
  else
    match pr.files with
    | .error _ => "other"
    | .ok allFiles =>
      let files := allFiles.take 10
      let docFiles := files.countP fun f =>
        [".md", ".rst", ".txt", "readme", "doc"].any (containsSub (lowerStr f))
      let testFiles := files.countP fun f =>
        ["test", "spec", "__test__"].any (containsSub (lowerStr f))
      if (files.length : Rat) * (1/2) < (docFiles : Rat) then "docs"
      else if (files.length : Rat) * (3/10) < (testFiles : Rat) then "test"
      else "other"

/-!
## `style_guide.py`
-/

/-- Python truthiness of a JSON value. -/
def jtruthy : JVal → Bool
  | .null => false
  | .jbool b => b
  | .num q => decide (q ≠ 0)
  | .str s => decide (s ≠ "")
  | .arr xs => !xs.isEmpty
  | .obj fields => !fields.isEmpty

def ANIMAL_CHARACTERS : List String :=
  ["Majestic Bear", "Wise Owl", "Industrious Beaver", "Cunning Fox",
   "Agile Octopus", "Loyal Wolf", "Meticulous Hummingbird", "Playful Otter",
   "GitHub Octopus", "Elegant Cat", "Curious Raccoon", "Noble Eagle"]

def DRAWING_STYLES : List String :=
  ["1980s retro wave", "Futuristic cyberpunk", "Chinese ink wash painting",
   "Steampunk mechanical", "Minimalist line art", "Vibrant pop art",
   "Dark fantasy concept art", "Blueprint schematic", "Watercolor illustration",
   "Digital pixel art"]

def BACKGROUND_ENVIRONMENTS : List String :=
  ["A server room with glowing racks", "A digital forest with flowing data streams",
   "A library of ancient code scrolls", "A futuristic city skyline",
   "A workshop filled with gears and circuits", "An abstract representation of a neural network",
   "A cozy home office with multiple monitors", "A minimalist workspace with clean lines",
   "A cyberpunk alleyway with neon signs", "A peaceful garden with geometric patterns"]

def LANGUAGE_STYLE_MAP : List (String × List String) :=
  [("Python", ["Futuristic cyberpunk", "Minimalist line art", "Digital pixel art"]),
   ("JavaScript", ["Vibrant pop art", "1980s retro wave", "Blueprint schematic"]),
   ("Java", ["Steampunk mechanical", "Blueprint schematic", "Dark fantasy concept art"]),
   ("C", ["1980s retro wave", "Blueprint schematic", "Steampunk mechanical"]),
   ("C++", ["Dark fantasy concept art", "Steampunk mechanical", "Blueprint schematic"]),
   ("Rust", ["Steampunk mechanical", "Dark fantasy concept art", "Futuristic cyberpunk"]),
   ("Go", ["Minimalist line art", "Blueprint schematic", "Futuristic cyberpunk"]),
   ("TypeScript", ["Vibrant pop art", "Futuristic cyberpunk", "Minimalist line art"]),
   ("Ruby", ["Watercolor illustration", "Vibrant pop art", "Chinese ink wash painting"]),
   ("Swift", ["Minimalist line art", "Futuristic cyberpunk", "Vibrant pop art"]),
   ("Kotlin", ["Vibrant pop art", "Futuristic cyberpunk", "Digital pixel art"]),
   ("PHP", ["1980s retro wave", "Watercolor illustration", "Vibrant pop art"]),
   ("R", ["Chinese ink wash painting", "Watercolor illustration", "Minimalist line art"]),
   ("MATLAB", ["Blueprint schematic", "Minimalist line art", "Futuristic cyberpunk"]),
   ("Jupyter Notebook", ["Futuristic cyberpunk", "Digital pixel art", "Minimalist line art"])]

def DOMAIN_BACKGROUND_MAP : List (String × List String) :=
  [("AI/ML", ["An abstract representation of a neural network", "A futuristic city skyline", "A digital forest with flowing data streams"]),
   ("Web Frontend", ["A cozy home office with multiple monitors", "A vibrant digital workspace", "A minimalist workspace with clean lines"]),
   ("Web Backend", ["A server room with glowing racks", "A workshop filled with gears and circuits", "A cyberpunk alleyway with neon signs"]),
   ("Game Development", ["A dark fantasy realm", "A cyberpunk alleyway with neon signs", "A workshop filled with gears and circuits"]),
   ("Data Science", ["A library of ancient code scrolls", "An abstract representation of a neural network", "A peaceful garden with geometric patterns"]),
   ("DevOps/Infra", ["A server room with glowing racks", "A workshop filled with gears and circuits", "A futuristic city skyline"]),
   ("Mobile", ["A minimalist workspace with clean lines", "A cozy home office with multiple monitors", "A futuristic city skyline"]),
   ("Cybersecurity", ["A dark fantasy realm", "A cyberpunk alleyway with neon signs", "A server room with glowing racks"])]

def CONTRIBUTION_CHARACTER_MAP : List (String × List String) :=
  [("Solo Creator", ["Wise Owl", "Majestic Bear", "Noble Eagle"]),
   ("Collaborator", ["Playful Otter", "Loyal Wolf", "GitHub Octopus"]),
   ("Architect", ["Industrious Beaver", "Wise Owl", "Meticulous Hummingbird"]),
   ("Refined Developer", ["Elegant Cat", "Meticulous Hummingbird", "Curious Raccoon"])]

/-- The three style modifiers of a `TIME_STYLE_MAP` entry. -/
structure TimeModifiers where
  lighting : String
  color_scheme : String
  atmosphere : String
deriving DecidableEq, Repr

def TIME_STYLE_MAP : List (String × TimeModifiers) :=
  [("Night Owl", ⟨"moonlit with dark shadows",
      "dark blues and purples with neon highlights", "mysterious and focused"⟩),
   ("Day Coder", ⟨"bright natural sunlight",
      "warm yellows and bright colors", "energetic and vibrant"⟩),
   ("Evening Coder", ⟨"golden hour with warm shadows",
      "orange and warm tones", "calm and productive"⟩),
   ("Morning Coder", ⟨"soft morning light",
      "soft pastels and fresh colors", "fresh and optimistic"⟩)]

def ACTIVITY_CHARACTER_MAP : List (String × List String) :=
  [("Highly Active", ["energetic", "dynamic", "powerful"]),
   ("Consistent", ["steady", "reliable", "focused"]),
   ("Casual", ["relaxed", "contemplative", "peaceful"]),
   ("Sporadic", ["mysterious", "spontaneous", "creative"])]

/-- The dictionary built by `get_weighted_style_elements`. -/
structure StyleElements where
  character : String
  drawing_style : String
  background : String
  lighting : String
  color_scheme : String
  atmosphere : String
  character_traits : List String
deriving DecidableEq, Repr

/-- The "I feel lucky" jitter block of `get_weighted_style_elements`
(style_guide.py lines 164-172): one `random.choice` for the element to
randomise and one for its new value. -/
def applyJitter (style : StyleElements) (r : RandSrc) : StyleElements × RandSrc :=
  let er := randChoice ["character", "drawing_style", "background"] r
  if er.1 = "character" then
    let cr := randChoice ANIMAL_CHARACTERS er.2
    ({ style with character := cr.1 }, cr.2)
  else if er.1 = "drawing_style" then
    let dr := randChoice DRAWING_STYLES er.2
    ({ style with drawing_style := dr.1 }, dr.2)
  else
    let br := randChoice BACKGROUND_ENVIRONMENTS er.2
    ({ style with background := br.1 }, br.2)

/-- `get_weighted_style_elements` (style_guide.py lines 101-174), with the
`random` module state threaded explicitly.  Random calls happen in source
order: one `random.choice` each for character, drawing style and
background, one `random.random()` for the jitter test, and on a jitter two
further `random.choice` calls. -/
def getWeightedStyleElements (profile : JVal) (randomness : Rat) (r : RandSrc) :
    StyleElements × RandSrc :=
  let contributionStyle : Option String :=
    ((jget profile "contribution_style").bind (jget · "primary_style")).bind jstr?
  let cr :=
    match contributionStyle with
    | some cs =>
      if cs ≠ "" then
        match CONTRIBUTION_CHARACTER_MAP.lookup cs with
        | some options => randChoice options r
        | none => randChoice ANIMAL_CHARACTERS r
      else randChoice ANIMAL_CHARACTERS r
    | none => randChoice ANIMAL_CHARACTERS r
  let languageProfile := jfields (jget profile "language_profile")
  let dr :=
    if languageProfile.isEmpty then randChoice DRAWING_STYLES cr.2
    else
      let primaryLanguage := pyMaxKey (languageProfile.map fun p => (p.1, (jnum? p.2).getD 0))
      match LANGUAGE_STYLE_MAP.lookup primaryLanguage with
      | some options => randChoice options cr.2
      | none => randChoice DRAWING_STYLES cr.2
  let domainFocus := jelems (jget profile "domain_focus")
  let br :=
    match domainFocus.head? with
    | some d =>
      match (jstr? d).bind (fun s => DOMAIN_BACKGROUND_MAP.lookup s) with
      | some options => randChoice options dr.2
      | none => randChoice BACKGROUND_ENVIRONMENTS dr.2
    | none => randChoice BACKGROUND_ENVIRONMENTS dr.2
  let cadence := jget profile "commit_cadence"
  let timeOfDay := (cadence.bind (jget · "time_of_day")).bind jstr?
  let mods :=
    match timeOfDay.bind (fun t => TIME_STYLE_MAP.lookup t) with
    | some m => m
    | none => ⟨"natural lighting", "balanced colors", "focused"⟩
  let activityLevel := (cadence.bind (jget · "activity_level")).bind jstr?
  let characterTraits :=
    match activityLevel.bind (fun a => ACTIVITY_CHARACTER_MAP.lookup a) with
    | some ts => ts
    | none => []
  let style : StyleElements :=
    ⟨cr.1, dr.1, br.1,
     mods.lighting, mods.color_scheme, mods.atmosphere, characterTraits⟩
  let ur := randUniform br.2
  if ur.1 < randomness then applyJitter style ur.2 else (style, ur.2)

/-!
## `thematic_elements.py` and `prompt_generator.py`
-/

/-- `LANGUAGE_THEMES`: for each language, its `direct` and `extended` theme. -/
def LANGUAGE_THEMES : List (String × (String × String)) :=
  [("Python",
    ("A wise, friendly green python snake, often coiled around a glowing staff or a book titled 'Zen of Python'.",
     "A wizard's workshop filled with bubbling potions and enchanted brooms (for automation and 'magic'), with a Monty Python-style foot occasionally appearing in the background.")),
   ("JavaScript",
    ("A dynamic chameleon that changes colors and patterns, representing adaptability.",
     "A bustling, neon-lit cyberpunk city street at night, representing the vibrant, ever-changing web.")),
   ("TypeScript",
    ("A dynamic chameleon wearing a set of lightweight, glowing armor or a shield.",
     "A bustling, neon-lit cyberpunk city with organized, holographic traffic control systems floating above the chaos.")),
   ("Java",
    ("A sturdy, steaming ceramic coffee mug on an oak table.",
     "The engine room of a massive starship or an industrial factory with robotic arms assembling complex machinery.")),
   ("C++",
    ("A high-performance race car engine, gleaming and powerful, with visible, interlocking gears.",
     "A blacksmith's forge, where the character is crafting a powerful, glowing sword or intricate mechanical device from raw metal.")),
   ("C#",
    ("A beautifully crafted, multi-paned window looking out onto a serene landscape.",
     "A set of magical, interlocking building blocks (like LEGOs) that can form any structure, from a castle to a spaceship.")),
   ("Go",
    ("The friendly, buck-toothed Gopher mascot, often depicted as a busy construction worker or a logistics manager.",
     "A massive, automated shipping port with cranes efficiently moving containers, or a minimalist Zen garden with perfectly placed stones.")),
   ("Rust",
    ("Ferris, the friendly crab mascot, polishing a gear until it's rust-free and stronger than new.",
     "A character wearing advanced climbing gear and a safety harness while scaling a treacherous cliff.")),
   ("Ruby",
    ("A large, perfectly cut, sparkling ruby gem that refracts light into beautiful patterns.",
     "An elegant jewelry maker's workbench with exquisite, specialized tools, emphasizing craft and convention ('Rails')."))]

/-- `DOMAIN_THEMES`: for each domain, its `direct` and `extended` theme. -/
def DOMAIN_THEMES : List (String × (String × String)) :=
  [("Web Frontend",
    ("An artist's palette and easel, where the painting on the canvas comes to life.",
     "A magical theater stage where the character can instantly change sets, costumes, and lighting. In the audience, viewers hold everything from Nokia flip phones to futuristic transparent tablets.")),
   ("Web Backend",
    ("The central nervous system of a giant, sleeping creature, with pulses of light traveling along neural pathways.",
     "The master kitchen of a world-class restaurant during peak service, with the character as the head chef calmly directing a flurry of activity.")),
   ("AI / Machine Learning",
    ("A glowing, holographic brain that the character is interacting with.",
     "An ancient observatory where the character uses a telescope to find new constellations, while an abacus and a quantum computer float side-by-side.")),
   ("Data Science & Analytics",
    ("A detective's office from the 1940s; the character uses a magnifying glass to inspect charts and maps, uncovering hidden clues.",
     "An ancient library where the character translates forgotten languages from dusty scrolls, assisted by a mechanical calculator and a talking abacus.")),
   ("Mobile Development",
    ("A timeline of communication devices: a rotary phone, a Nokia 'brick' phone, a flip phone, and a modern smartphone, all displaying notifications for the character.",
     "The character is a park ranger in a vast national park, using a multi-tool Swiss Army knife to solve various challenges for animal visitors.")),
   ("DevOps / Infrastructure",
    ("A master gardener tending to the intricate root system of a colossal, continent-sized tree.",
     "The character is the conductor of a magical train system, where tracks are laid down instantly in front of the train and carriages (containers) can be swapped on the fly.")),
   ("Generalist",
    ("A workshop filled with a vast array of tools for every trade, from soldering irons to wood-carving knives.",
     "A character who is a legendary explorer and collector of rare artifacts, with a backpack that contains a solution for every problem."))]

/-- The domain-name normalisation table shared by `get_thematic_descriptions`
and `get_weighted_thematic_descriptions`. -/
def domain_mapping : List (String × String) :=
  [("AI/ML", "AI / Machine Learning"),
   ("AI / Machine Learning", "AI / Machine Learning"),
   ("Machine Learning", "AI / Machine Learning"),
   ("Data Science", "Data Science & Analytics"),
   ("Data Science & Analytics", "Data Science & Analytics"),
   ("Web Frontend", "Web Frontend"),
   ("Frontend", "Web Frontend"),
   ("Web Backend", "Web Backend"),
   ("Backend", "Web Backend"),
   ("Mobile Development", "Mobile Development"),
   ("Mobile", "Mobile Development"),
   ("DevOps", "DevOps / Infrastructure"),
   ("Infrastructure", "DevOps / Infrastructure"),
   ("DevOps / Infrastructure", "DevOps / Infrastructure"),
   ("Cybersecurity", "Generalist"),
   ("Generalist", "Generalist")]

/-- `random.choice(['direct', 'extended'])` followed by the dictionary
lookup of the chosen theme text. -/
def chooseTheme (details : String × String) (r : RandSrc) : String × RandSrc :=
  let (t, r) := randChoice ["direct", "extended"] r
  (if t = "extended" then details.2 else details.1, r)

/-- `get_primary_language` (prompt_generator.py lines 160-172). -/
def getPrimaryLanguage (profile : JVal) : String :=
  let languageProfile := jfields (jget profile "language_profile")
  if languageProfile.isEmpty then "multiple programming languages"
  else
    let primaryLang := pyMaxKey (languageProfile.map fun p => (p.1, (jnum? p.2).getD 0))
    let percentage := ((languageProfile.lookup primaryLang).bind jnum?).getD 0
    if 50 < percentage then primaryLang ++ " (primary language)"
    else primaryLang ++ " and other languages"

/-- `get_primary_domain` (prompt_generator.py lines 174-180). -/
def getPrimaryDomain (profile : JVal) : String :=
  match (jelems (jget profile "domain_focus")).head? with
  | none => "general software development"
  | some d => lowerStr ((jstr? d).getD "")

/-- `get_activity_description` (prompt_generator.py lines 182-207). -/
def getActivityDescription (profile : JVal) : String :=
  let commitCadence := jfields (jget profile "commit_cadence")
  if commitCadence.isEmpty then "The character should appear as an active developer"
  else
    let timeOfDay := ((commitCadence.lookup "time_of_day").bind jstr?).getD "Unknown"
    let activityLevel := ((commitCadence.lookup "activity_level").bind jstr?).getD "Unknown"
    let activity_map : List (String × String) :=
      [("Night Owl", "working late into the night with glowing screens"),
       ("Day Coder", "working during bright daylight hours"),
       ("Evening Coder", "working during golden hour evening sessions"),
       ("Morning Coder", "working during fresh morning hours")]
    let activityDesc := (activity_map.lookup timeOfDay).getD "working at their computer"
    if activityLevel = "Highly Active" then
      "Show the character as very energetic, " ++ activityDesc
    else if activityLevel = "Consistent" then
      "Show the character as steadily focused, " ++ activityDesc
    else if activityLevel = "Casual" then
      "Show the character as relaxed and contemplative, " ++ activityDesc
    else
      "Show the character " ++ activityDesc

/-- One entry of the `language_themes` list built by
`get_weighted_thematic_descriptions`. -/
structure LangTheme where
  language : String
  percentage : Rat
  weight_desc : String
  theme : String
deriving DecidableEq, Repr

/-- One entry of the `domain_themes` list built by
`get_weighted_thematic_descriptions`. -/
structure DomainTheme where
  domain : String
  position : Nat
  weight_desc : String
  theme : String
deriving DecidableEq, Repr

/-- `lang.split(" ")[0]`. -/
def firstWord (s : String) : String := (s.splitOn " ").headD ""

/-- The language loop of `get_weighted_thematic_descriptions` (lines
289-304): languages with at least 5% usage and a theme entry, each
consuming one `random.choice(['direct', 'extended'])`. -/
def langThemesLoop : List (String × JVal) → RandSrc → List LangTheme × RandSrc
  | [], r => ([], r)
  | (lang, v) :: rest, r =>
    let pct := (jnum? v).getD 0
    if 5 ≤ pct then
      match LANGUAGE_THEMES.lookup (firstWord lang) with
      | some details =>
        let (themeText, r) := chooseTheme details r
        if themeText ≠ "" then
          let weightDesc :=
            if 40 < pct then "primary" else if 15 < pct then "significant" else "notable"
          let (ts, r') := langThemesLoop rest r
          (⟨lang, pct, weightDesc, themeText⟩ :: ts, r')
        else langThemesLoop rest r
      | none => langThemesLoop rest r
    else langThemesLoop rest r

/-- The domain loop of `get_weighted_thematic_descriptions` (lines
329-343) over the first three enumerated domains. -/
def domainThemesLoop : List (Nat × String) → RandSrc → List DomainTheme × RandSrc
  | [], r => ([], r)
  | (i, domain) :: rest, r =>
    let key := (domain_mapping.lookup domain).getD "Generalist"
    match DOMAIN_THEMES.lookup key with
    | some details =>
      let (themeText, r) := chooseTheme details r
      if themeText ≠ "" then
        let weightDesc :=
          if i = 0 then "primary" else if i = 1 then "secondary" else "additional"
        let (ts, r') := domainThemesLoop rest r
        (⟨domain, i + 1, weightDesc, themeText⟩ :: ts, r')
      else domainThemesLoop rest r
    | none => domainThemesLoop rest r

/-- Stable insertion of `x` into an already sorted list: `x` goes in
front of the first element `y` with `le x y`. -/
def stableInsert (le : LangTheme → LangTheme → Bool) (x : LangTheme) :
    List LangTheme → List LangTheme
  | [] => [x]
  | y :: ys => if le x y then x :: y :: ys else y :: stableInsert le x ys

/-- A stable sort: the specification of Python's `sorted`, which keeps
the original order of elements with equal keys. -/
def stableSort (le : LangTheme → LangTheme → Bool) : List LangTheme → List LangTheme
  | [] => []
  | x :: xs => stableInsert le x (stableSort le xs)

/-- `get_weighted_thematic_descriptions` (lines 280-345): the language
themes (sorted by percentage, descending, stable — Python
`sort(key=..., reverse=True)`) and the domain themes. -/
def getWeightedThematicDescriptions (profile : JVal) (r : RandSrc) :
    (List LangTheme × List DomainTheme) × RandSrc :=
  let languageProfile := jfields (jget profile "language_profile")
  let domainFocus := (jelems (jget profile "domain_focus")).map (fun d => (jstr? d).getD "")
  let (lts, r) := langThemesLoop languageProfile r
  let lts := stableSort (fun a b => decide (b.percentage ≤ a.percentage)) lts
  let (dts, r) := domainThemesLoop (domainFocus.take 3).enum r
  ((lts, dts), r)

/-- Python's `'%.1f'`-style formatting of a non-negative rational
(`f"{x:.1f}"`). -/
def formatFixed1 (q : Rat) : String :=
  let s := roundHalfEven (q * 10)
  toString (s / 10) ++ "." ++ toString (s % 10)

/-- The `thematic_section` string of `generate_image_prompt` (lines 47-61). -/
def thematicSection (character : String) (languageThemes : List LangTheme)
    (domainThemes : List DomainTheme) : String :=
  if languageThemes.isEmpty && domainThemes.isEmpty then ""
  else
    let s :=
      "Thematic Interaction:\n- The scene should feature thematic elements representing the developer's diverse skill set. The "
        ++ character ++ " should be interacting with these elements naturally.\n"
    let s :=
      if languageThemes.isEmpty then s
      else
        s ++ "- Programming Language Elements:\n"
          ++ String.join (languageThemes.map fun lt =>
              "  • " ++ lt.language ++ " (" ++ formatFixed1 lt.percentage ++ "%, "
                ++ lt.weight_desc ++ "): " ++ lt.theme ++ "\n")
    let s :=
      if domainThemes.isEmpty then s
      else
        s ++ "- Domain Expertise Elements:\n"
          ++ String.join (domainThemes.map fun dt =>
              "  • " ++ dt.domain ++ " (" ++ dt.weight_desc ++ " focus): " ++ dt.theme ++ "\n")
    s ++ "- Integration: These thematic elements should complement each other and create a cohesive scene that tells the story of a multi-skilled developer.\n\n"

/-- `generate_linus_prompt` (prompt_generator.py lines 105-144). -/
def generateLinusPrompt : String :=
  "Create a legendary portrait of a wise, powerful octopus that embodies the essence and appearance of Linus Torvalds, the creator of Linux.

IMPORTANT: This must be a fully octopus character - NO human face or human features should appear. The character should be 100% octopus while capturing Linus's personality and style.

Character Details:
- A majestic octopus with distinctly octopus features (no human face elements)
- Linus's signature round, wire-rimmed glasses perched on the octopus's intelligent eyes
- The octopus head should have natural octopus texture with coloring reminiscent of Linus's graying hair
- Octopus eyes behind glasses showing intelligence and discernment (no human facial features)
- One tentacle gracefully positioned over a vintage mechanical keyboard, actively coding
- Another tentacle holding a steaming cup of coffee
- The octopus should convey Linus's characteristic thoughtful, slightly amused demeanor through body language and eye expression alone
- Body posture conveying both approachability and the authority of a technical leader
- Keep all features authentically octopus - tentacles, natural octopus skin texture, octopus eyes

Setting & Environment:
- Background: A sophisticated home office merged with abstract Linux kernel visualization
- Floating holographic C code snippets and kernel data structures
- Multiple monitors showing terminal windows with git commits and kernel compilation
- Tux the penguin mascot sitting nearby as a friendly companion
- Books about operating systems and computer science on shelves
- Color palette: Professional blues and greens with warm lighting from desk lamps

Artistic Style:
- Photorealistic portrait style with fantasy elements
- High detail showing both technical mastery and human warmth
- Professional lighting that highlights the glasses and creates depth
- The overall feeling should be \"brilliant engineer who changed the world\"
- Balance between approachable mentor and respected authority figure

Character Essence:
- Convey Linus's known personality: brilliant, direct, passionate about code quality
- The \"Benevolent Dictator for Life\" energy - firm but fair leadership
- Show someone who built the foundation of modern computing from his bedroom
- The octopus should feel like it could actually be Linus if he were an octopus
- Include subtle pride in the Linux ecosystem and open source philosophy
- STRICT REQUIREMENT: Maintain 100% octopus anatomy - no human face, no human mouth, no human nose
- Express personality and character through octopus eyes, tentacle positioning, and overall body language only"

/-- `generate_image_prompt` (prompt_generator.py lines 8-103), with the
`random` state threaded.  Note the source computes the style elements
(consuming randomness) before the `is_legend` check. -/
def generateImagePrompt (profile : JVal)
    (userPreferences : Option (List (String × String))) (randomness : Rat)
    (r : RandSrc) : String × RandSrc :=
  let (style, r) := getWeightedStyleElements profile randomness r
  if ((jget profile "is_legend").map jtruthy).getD false then
    (generateLinusPrompt, r)
  else
    let character := style.character
    let drawingStyle := style.drawing_style
    let background := style.background
    let lighting := style.lighting
    let colorScheme := style.color_scheme
    let atmosphere := style.atmosphere
    let characterTraits := String.intercalate ", " style.character_traits
    let primaryLanguage := getPrimaryLanguage profile
    let primaryDomain := getPrimaryDomain profile
    let activityInfo := getActivityDescription profile
    let (themes, r) := getWeightedThematicDescriptions profile r
    let thematic := thematicSection character themes.1 themes.2
    let prompt :=
      "Create a " ++ drawingStyle ++ " illustration of a " ++ characterTraits ++ " "
        ++ character ++ " representing a software developer.\n\nIMPORTANT: This must be a fully animal character - NO human face or human features should appear. Keep the character 100% as the specified animal while expressing personality through animal features and body language.\n\nCharacter Details:\n- The "
        ++ character ++ " should embody the essence of a " ++ primaryDomain
        ++ " developer who primarily codes in " ++ primaryLanguage
        ++ "\n- Character traits: " ++ characterTraits
        ++ "\n- The character should appear " ++ atmosphere
        ++ " and dedicated to their craft\n- Maintain authentic animal anatomy - no human facial features, expressions should be conveyed through animal eyes and body language\n\nSetting & Environment:\n- Background: "
        ++ background ++ "\n- Lighting: " ++ lighting ++ "\n- Color scheme: "
        ++ colorScheme ++ "\n- Atmosphere: " ++ atmosphere ++ "\n\n" ++ thematic
        ++ "Technical Context:\n- Subtle references to " ++ primaryLanguage
        ++ " programming (perhaps code snippets, logos, or related symbols in the background)\n- The environment should reflect "
        ++ primaryDomain ++ " development work\n- " ++ activityInfo
        ++ "\n\nArtistic Style:\n- Style: " ++ drawingStyle
        ++ "\n- High quality, detailed illustration\n- The character should be the main focus\n- Professional yet creative representation of a modern software developer\n\nAdditional Details:\n- The "
        ++ character
        ++ " should look intelligent and capable through animal expressions only\n- Include subtle technological elements that don't overwhelm the composition\n- Maintain a balance between technical accuracy and artistic creativity\n- STRICT REQUIREMENT: No human faces, mouths, or facial features - keep 100% animal characteristics"
    let prompt :=
      match userPreferences with
      | none => prompt
      | some prefs =>
        prompt ++ "\n\nUser Preferences:\n"
          ++ String.join (prefs.map fun p => "- " ++ p.1 ++ ": " ++ p.2 ++ "\n")
    (prompt, r)

/-- `create_prompt_variations` (prompt_generator.py lines 209-231) at its
default `count=3`: three prompts at randomness 0.0, 0.15 and 0.3. -/
def createPromptVariations (profile : JVal) (r : RandSrc) : JVal × RandSrc :=
  let (p1, r) := generateImagePrompt profile none 0 r
  let (p2, r) := generateImagePrompt profile none (15/100) r
  let (p3, r) := generateImagePrompt profile none (3/10) r
  (.arr
    [.obj [("variation", .num 1), ("randomness_level", .num 0), ("prompt", .str p1)],
     .obj [("variation", .num 2), ("randomness_level", .num (15/100)), ("prompt", .str p2)],
     .obj [("variation", .num 3), ("randomness_level", .num (3/10)), ("prompt", .str p3)]],
   r)

/-!
## `github_analyzer.analyze_user_profile`

The sub-analyses embedded above take their API inputs from a `World`
value.  The Gemini-dependent sub-analyses (`get_area_of_focus`,
`detect_high_profile_contributions`, `classify_frontend_backend_focus`,
`analyze_pull_requests`, `analyze_code_style_from_commits`) each catch
their failures internally and always return a value, so their results are
modelled as opaque `World` inputs; the claims under verification do not
constrain their internals.  `userFound` models whether `g.get_user`
succeeded (its failure makes the source return `None` before anything
else).
-/

/-- The API world one `analyze_user_profile` run observes. -/
structure World where
  userFound : Bool
  reposL : List RepoL
  reposS : List RepoS
  reposK : List RepoK
  first10RepoNames : List String
  reposO : Except Unit (List RepoO)
  domainFocus : List String
  debugInfo : JVal
  highProfile : JVal
  fbFocus : JVal
  collaborationProfile : JVal
  codeStyleProfile : JVal
  lastUpdated : String
  rng : RandSrc

/-- What one `analyze_user_profile` call did. -/
structure AnalyzeResult where
  profile : JVal
  ranSubAnalyses : Bool

/-- `analyze_user_profile` can return `None` (unknown user), raise, or
produce a profile. -/
inductive AnalyzeOutcome where
  | userNotFound
  | raised
  | ok (res : AnalyzeResult)

/-- The three hard-coded prompt variations of the Torvalds easter egg
(lines 1085-1101), derived from the Linus prompt by string replacement. -/
def linusVariations : JVal :=
  let mainPrompt := generateLinusPrompt
  .arr
    [.obj
      [("variation", .num 1), ("randomness_level", .num 0),
       ("prompt", .str ((mainPrompt.replace "Create a legendary portrait"
          "Create a professional headshot style portrait").replace
          "Photorealistic portrait style" "Corporate executive portrait style"))],
     .obj
      [("variation", .num 2), ("randomness_level", .num (15/100)),
       ("prompt", .str (((mainPrompt.replace "Create a legendary portrait"
          "Create a detailed pencil sketch").replace
          "Photorealistic portrait style" "Classical charcoal drawing style").replace
          "Professional lighting" "Soft studio lighting"))],
     .obj
      [("variation", .num 3), ("randomness_level", .num (3/10)),
       ("prompt", .str (((mainPrompt.replace "Create a legendary portrait"
          "Create a cyberpunk-inspired digital art").replace
          "Photorealistic portrait style" "Futuristic cyberpunk art style").replace
          "Professional blues and greens" "Neon blues and electric greens"))]]

/-- The fixed pre-defined profile for Linus Torvalds (lines 1066-1106). -/
def legendProfile : JVal :=
  .obj
    [("username", .str "torvalds"),
     ("is_legend", .jbool true),
     ("analysis_type", .str "pre-defined"),
     ("language_profile", .obj [("C", .num 100)]),
     ("domain_focus", .arr [.str "Operating Systems Kernel"]),
     ("contribution_style", .str "Benevolent Dictator for Life"),
     ("commit_cadence", .obj
       [("activity_level", .str "God-Tier"), ("time_of_day", .str "All the time")]),
     ("image_prompts", .obj
       [("main_prompt", .str generateLinusPrompt), ("variations", linusVariations)])]

/-- `analyze_user_profile` (lines 1049-1189, the profile construction;
the `json.dump` to `user_profile/<username>_profile.json` is
`saveUserProfile` below, applied by the callers of this model).  A
`get_languages` exception inside `get_language_distribution` has no
handler anywhere on this path, so it escapes as `.raised`. -/
def analyzeUserProfile (username : String) (w : World) (daysWindow : Nat) :
    AnalyzeOutcome :=
  if !w.userFound then .userNotFound
  else if lowerStr username = "torvalds" then
    .ok ⟨legendProfile, false⟩
  else
    match getLanguageDistribution w.reposL with
    | .error _ => .raised
    | .ok langDist =>
      let langProfile : JVal := .obj (langDist.map fun p => (p.1, .num p.2))
      let domainFocus : JVal := .arr (w.domainFocus.map .str)
      let contributionStyle := getContributionStyle w.reposS
      let commitCadence := getCommitCadence w.reposK w.first10RepoNames daysWindow
      let originality := analyzeCodeOriginality w.reposO
      let tempProfile : JVal := .obj
        [("username", .str username),
         ("last_updated", .str w.lastUpdated),
         ("analysis_parameters", .obj [("days_window", .num daysWindow)]),
         ("language_profile", langProfile),
         ("domain_focus", domainFocus),
         ("contribution_style", contributionStyle),
         ("commit_cadence", commitCadence),
         ("originality_analysis", originality),
         ("high_profile_contributions", w.highProfile),
         ("frontend_backend_focus", w.fbFocus),
         ("collaboration_profile", w.collaborationProfile),
         ("code_style_profile", w.codeStyleProfile)]
      let (mainPrompt, r) := generateImagePrompt tempProfile none (1/10) w.rng
      let (variations, _) := createPromptVariations tempProfile r
      let profile : JVal := .obj
        [("username", .str username),
         ("last_updated", .str w.lastUpdated),
         ("analysis_parameters", .obj [("days_window", .num daysWindow)]),
         ("language_profile", langProfile),
         ("domain_focus", domainFocus),
         ("contribution_style", contributionStyle),
         ("commit_cadence", commitCadence),
         ("originality_analysis", originality),
         ("high_profile_contributions", w.highProfile),
         ("frontend_backend_focus", w.fbFocus),
         ("collaboration_profile", w.collaborationProfile),
         ("code_style_profile", w.codeStyleProfile),
         ("image_prompts", .obj
           [("main_prompt", .str mainPrompt), ("variations", variations)]),
         ("debug_info", w.debugInfo)]
      .ok ⟨profile, true⟩

/-!
## The CLI (`main.py`) and the profile cache on disk

Profile files hold JSON token streams; text files (the prompt fallbacks)
hold strings.
-/

/-- The JSON profile store: path to token stream. -/
abbrev FS := List (String × List JTok)

/-- Write (create or overwrite) one file. -/
def fsWrite (fs : FS) (p : String) (ts : List JTok) : FS :=
  match fs with
  | [] => [(p, ts)]
  | (q, old) :: rest => if q = p then (q, ts) :: rest else (q, old) :: fsWrite rest p ts

/-- `user_profile/<username>_profile.json`: the path used both by the
analyzer's save (github_analyzer.py line 1184) and the CLI's load
(main.py line 33). -/
def profilePath (username : String) : String :=
  "user_profile/" ++ username ++ "_profile.json"

/-- The `json.dump` of `analyze_user_profile` (lines 1180-1186). -/
def saveUserProfile (fs : FS) (username : String) (profile : JVal) : FS :=
  fsWrite fs (profilePath username) (jencode profile)

/-- `GitToImageCLI.load_existing_profile` (main.py lines 31-40): `none`
when the file does not exist or `json.load` raises. -/
def loadExistingProfile (fs : FS) (username : String) : Option JVal :=
  match fs.lookup (profilePath username) with
  | none => none
  | some ts => jparse ts

/-- The environment variables the CLI reads. -/
structure Env where
  githubToken : Option String
  geminiKey : Option String

/-- The observable outcome of one single-user CLI run. -/
structure CliTrace where
  exitCode : Option Nat
  ranAnalysis : Bool
  profileUsed : Option JVal
  ranImageGeneration : Bool
  fs : FS

/-- The tail of the single-user mode (main.py lines 796-831) for runs
without the preview / profile-picture / multi-style / style-interactive
flags: image generation happens when `--profile-only` is not given and
the profile has an `image_prompts` key; `genSuccess` is the outcome of
`generate_image`. -/
def finishSingleUser (profile : JVal) (ranAnalysis profileOnly genSuccess : Bool)
    (fs : FS) : CliTrace :=
  if !profileOnly && (jget profile "image_prompts").isSome then
    ⟨some (if genSuccess then 0 else 1), ranAnalysis, some profile, true, fs⟩
  else
    ⟨none, ranAnalysis, some profile, false, fs⟩

/-- The single-user flag mode of `main` (main.py lines 774-831): load the
cached profile unless `--force-refresh`; when absent, check the
credentials (exit 1 on a missing one) and analyze; an exception from
the analysis reaches the top-level handler, which exits 1. -/
def mainSingleUser (env : Env) (fs : FS) (username : String)
    (forceRefresh profileOnly : Bool) (w : World) (genSuccess : Bool) : CliTrace :=
  let cached := if forceRefresh then none else loadExistingProfile fs username
  match cached with
  | some profile => finishSingleUser profile false profileOnly genSuccess fs
  | none =>
    match env.githubToken with
    | none => ⟨some 1, false, none, false, fs⟩
    | some _ =>
      match env.geminiKey with
      | none => ⟨some 1, false, none, false, fs⟩
      | some _ =>
        match analyzeUserProfile username w 90 with
        | .ok res =>
          let fs := saveUserProfile fs username res.profile
          finishSingleUser res.profile true profileOnly genSuccess fs
        | _ => ⟨some 1, true, none, false, fs⟩

/-- How far `interactive_mode` gets before the generation-mode menu. -/
inductive InteractiveStep where
  | failed (ranAnalysis : Bool)
  | proceedWith (profile : JVal) (ranAnalysis : Bool)

/-- The profile-acquisition stage of `GitToImageCLI.interactive_mode`
(main.py lines 91-133): reuse of an existing profile is governed by the
user's answer `useExisting`; without a profile, a missing credential
returns `False` before `analyze_user_profile` is called, and an analysis
exception is caught and returns `False`.  The generation-mode dispatch
that follows a successful acquisition is outside the claims and not
modelled. -/
def interactiveMode (env : Env) (fs : FS) (username : String)
    (useExisting : Bool) (w : World) : InteractiveStep :=
  let existing := loadExistingProfile fs username
  let profile :=
    match existing with
    | some p => if useExisting then some p else none
    | none => none
  match profile with
  | some p => .proceedWith p false
  | none =>
    match env.githubToken with
    | none => .failed false
    | some _ =>
      match env.geminiKey with
      | none => .failed false
      | some _ =>
        match analyzeUserProfile username w 90 with
        | .ok res => .proceedWith res.profile true
        | _ => .failed true

/-!
## `image_generator.ImageGenerator` and `GitToImageCLI.generate_image`

Text files written under `generated_images/` are modelled as a map from
path to content.  `gensid` and `fallbackSid` are the session identifiers
`generate_session_id()` would mint inside `ImageGenerator.generate_image`
and `save_prompt_fallback` respectively (each generates a fresh one when
`session_id` is `None`); `now` is `datetime.now().isoformat()`.
-/

/-- The text-file store: path to content. -/
abbrev TextFS := List (String × String)

/-- Write (create or overwrite) one text file. -/
def tfsWrite (fs : TextFS) (p : String) (s : String) : TextFS :=
  match fs with
  | [] => [(p, s)]
  | (q, old) :: rest => if q = p then (q, s) :: rest else (q, old) :: tfsWrite rest p s

/-- The state of an `ImageGenerator`: whether the imaging packages
imported, the `GEMINI_API_KEY` value, whether the client initialised, and
the outcome of the `generate_content` call (`.error` a raised exception,
`.ok none` a response with no inline image part, `.ok (some data)` image
bytes). -/
structure ImageGenState where
  imagingAvailable : Bool
  apiKey : Option String
  clientOk : Bool
  apiResponse : Except String (Option String)

/-- `self.available` (image_generator.py lines 29-39). -/
def ImageGenState.available (g : ImageGenState) : Bool :=
  g.apiKey.isSome && g.imagingAvailable && g.clientOk

/-- The header both prompt files share (lines 68-72 of main.py and
98-104 of image_generator.py). -/
def promptFileContent (sid now filename prompt : String) : String :=
  "Session ID: " ++ sid ++ "\nGenerated: " ++ now ++ "\nFilename: " ++ filename
    ++ "\n" ++ String.mk (List.replicate 50 '=') ++ "\n\n" ++ prompt

/-- `ImageGenerator.generate_image` (image_generator.py lines 47-111):
returns `(success, filepath_or_error_message)` and the updated file
store.  Every exception inside the call is caught by its own handler, so
the function itself never raises. -/
def imageGenGenerate (g : ImageGenState) (prompt filename : String)
    (sessionId : Option String) (gensid now : String) (fs : TextFS) :
    (Bool × String) × TextFS :=
  if !g.available then
    let errorMsg :=
      "Image generation not available. " ++
        (if !g.imagingAvailable then "Missing packages: pip install google-genai Pillow"
         else if g.apiKey.isNone then "Missing GEMINI_API_KEY environment variable"
         else "Failed to initialize Gemini client")
    ((false, errorMsg), fs)
  else
    let sid := sessionId.getD gensid
    match g.apiResponse with
    | .error e => ((false, "Error generating image: " ++ e), fs)
    | .ok none => ((false, "No image data received from Gemini API"), fs)
    | .ok (some data) =>
      let imagePath := "generated_images/" ++ sid ++ "_" ++ filename ++ ".png"
      let promptPath := "generated_images/" ++ sid ++ "_" ++ filename ++ "_prompt.txt"
      let fs := tfsWrite fs imagePath data
      let fs := tfsWrite fs promptPath (promptFileContent sid now filename prompt)
      ((true, imagePath), fs)

/-- `GitToImageCLI.save_prompt_fallback` (main.py lines 61-72). -/
def savePromptFallback (fs : TextFS) (prompt filename : String)
    (sessionId : Option String) (fallbackSid now : String) : TextFS :=
  let sid := sessionId.getD fallbackSid
  tfsWrite fs ("generated_images/" ++ sid ++ "_" ++ filename ++ "_prompt.txt")
    (promptFileContent sid now filename prompt)

/-- `GitToImageCLI.generate_image` (main.py lines 42-59): `raised` models
the `except Exception` branch (an exception escaping the `try` body, e.g.
out of the printing around the generator call); on a `(False, _)` result
or an exception it saves the prompt fallback and returns `False`. -/
def cliGenerateImage (g : ImageGenState) (raised : Option String)
    (prompt filename : String) (sessionId : Option String)
    (gensid fallbackSid now : String) (fs : TextFS) : Bool × TextFS :=
  match raised with
  | some _ => (false, savePromptFallback fs prompt filename sessionId fallbackSid now)
  | none =>
    let gr := imageGenGenerate g prompt filename sessionId gensid now fs
    if gr.1.1 then (true, gr.2)
    else (false, savePromptFallback gr.2 prompt filename sessionId fallbackSid now)

/-!
## Supporting lemmas
-/

theorem fsWrite_lookup_self (fs : FS) (p : String) (ts : List JTok) :
    (fsWrite fs p ts).lookup p = some ts := by
  induction fs with
  | nil => simp [fsWrite, List.lookup]
  | cons e rest ih =>
    obtain ⟨q, old⟩ := e
    by_cases h : q = p
    · simp [fsWrite, h, List.lookup]
    · have hb : (p == q) = false := by simp [Ne.symm h]
      simp [fsWrite, h, List.lookup, hb, ih]

theorem tfsWrite_lookup_self (fs : TextFS) (p s : String) :
    (tfsWrite fs p s).lookup p = some s := by
  induction fs with
  | nil => simp [tfsWrite, List.lookup]
  | cons e rest ih =>
    obtain ⟨q, old⟩ := e
    by_cases h : q = p
    · simp [tfsWrite, h, List.lookup]
    · have hb : (p == q) = false := by simp [Ne.symm h]
      simp [tfsWrite, h, List.lookup, hb, ih]

theorem pyMaxFold_mem (ps : List (String × Rat)) (p : String × Rat) :
    ps.foldl pyMaxStep p ∈ p :: ps := by
  induction ps generalizing p with
  | nil => simp
  | cons q qs ih =>
    have h := ih (pyMaxStep p q)
    rcases List.mem_cons.mp h with h' | h'
    · rw [List.foldl_cons, h']
      by_cases hc : p.2 < q.2 <;> simp [pyMaxStep, hc]
    · rw [List.foldl_cons]
      exact List.mem_cons_of_mem _ (List.mem_cons_of_mem _ h')

theorem pyMaxFold_le (ps : List (String × Rat)) (p : String × Rat) :
    p.2 ≤ (ps.foldl pyMaxStep p).2 ∧ ∀ q ∈ ps, q.2 ≤ (ps.foldl pyMaxStep p).2 := by
  induction ps generalizing p with
  | nil => simp
  | cons q qs ih =>
    obtain ⟨ih1, ih2⟩ := ih (pyMaxStep p q)
    have hp : p.2 ≤ (pyMaxStep p q).2 := by
      by_cases hc : p.2 < q.2 <;> simp [pyMaxStep, hc]
      exact le_of_lt hc
    have hq : q.2 ≤ (pyMaxStep p q).2 := by
      by_cases hc : p.2 < q.2 <;> simp [pyMaxStep, hc]
      exact le_of_not_lt hc
    refine ⟨le_trans hp ih1, fun x hx => ?_⟩
    rcases List.mem_cons.mp hx with h' | h'
    · subst h'; exact le_trans hq ih1
    · exact ih2 x h'

/-- `max(style_scores, key=style_scores.get)` returns a key of maximal
value. -/
theorem pyMaxKey_spec (pairs : List (String × Rat)) (h : pairs ≠ []) :
    ∃ v, (pyMaxKey pairs, v) ∈ pairs ∧ ∀ q ∈ pairs, q.2 ≤ v := by
  match pairs, h with
  | p :: ps, _ =>
    refine ⟨(ps.foldl pyMaxStep p).2, ?_, ?_⟩
    · have := pyMaxFold_mem ps p
      simpa [pyMaxKey] using this
    · intro q hq
      obtain ⟨h1, h2⟩ := pyMaxFold_le ps p
      rcases List.mem_cons.mp hq with h' | h'
      · subst h'; exact h1
      · exact h2 q h'

theorem roundHalfEven_nonneg (q : Rat) (h : 0 ≤ q) : 0 ≤ roundHalfEven q := by
  have hf : (0 : Int) ≤ ⌊q⌋ := by
    rw [Int.le_floor]; exact_mod_cast h
  unfold roundHalfEven
  dsimp only
  split
  · exact hf
  · split
    · omega
    · split <;> omega

theorem roundHalfEven_le_of_le (q : Rat) (b : Int) (h : q ≤ b) :
    roundHalfEven q ≤ b := by
  have hf : ⌊q⌋ ≤ b := (Int.floor_le_floor h).trans_eq (Int.floor_intCast b)
  unfold roundHalfEven
  dsimp only
  split
  · exact hf
  · rename_i h1
    have hlt : (⌊q⌋ : Rat) < q := by
      push_neg at h1
      linarith
    have : ⌊q⌋ < b := by
      have : (⌊q⌋ : Rat) < (b : Rat) := lt_of_lt_of_le hlt h
      exact_mod_cast this
    split
    · omega
    · split <;> omega

theorem pyRound_nonneg (q : Rat) (nd : Nat) (h : 0 ≤ q) : 0 ≤ pyRound q nd := by
  unfold pyRound
  have h10 : (0 : Rat) < 10 ^ nd := by positivity
  have := roundHalfEven_nonneg (q * 10 ^ nd) (by positivity)
  positivity

theorem pyRound_le_one (q : Rat) (nd : Nat) (h : q ≤ 1) : pyRound q nd ≤ 1 := by
  unfold pyRound
  have h10 : (0 : Rat) < 10 ^ nd := by positivity
  have hb : q * 10 ^ nd ≤ ((10 ^ nd : Int) : Rat) := by
    push_cast
    nlinarith
  have := roundHalfEven_le_of_le (q * 10 ^ nd) (10 ^ nd) hb
  rw [div_le_one h10]
  calc (roundHalfEven (q * 10 ^ nd) : Rat) ≤ ((10 ^ nd : Int) : Rat) := by exact_mod_cast this
    _ = 10 ^ nd := by push_cast; ring

/-- Closed form of the `get_contribution_style` loop counters: over the
repositories up to the first stale one, the commit totals, ownership and
fork counts, and the messages and sizes of the first ten commits of each
successfully fetched repository. -/
def csClosed (repos : List RepoS) : CSAcc :=
  let pr := repos.takeWhile (·.recent)
  { totalCommits := (pr.map fun r => match r.commits with
      | .ok cs => cs.length
      | .error _ => 0).sum
    totalRepos := pr.length
    ownRepos := pr.countP (·.own)
    forkRepos := pr.countP (·.fork)
    commitSizes := pr.flatMap fun r => match r.commits with
      | .ok cs => (cs.take 10).filterMap (·.files)
      | .error _ => []
    commitMessages := pr.flatMap fun r => match r.commits with
      | .ok cs => (cs.take 10).map (·.message)
      | .error _ => [] }

theorem csLoop_acc (repos : List RepoS) (acc : CSAcc) :
    csLoop repos acc =
      { totalCommits := acc.totalCommits + (csClosed repos).totalCommits
        totalRepos := acc.totalRepos + (csClosed repos).totalRepos
        ownRepos := acc.ownRepos + (csClosed repos).ownRepos
        forkRepos := acc.forkRepos + (csClosed repos).forkRepos
        commitSizes := acc.commitSizes ++ (csClosed repos).commitSizes
        commitMessages := acc.commitMessages ++ (csClosed repos).commitMessages } := by
  induction repos generalizing acc with
  | nil => simp [csLoop, csClosed]
  | cons r rs ih =>
    by_cases hr : r.recent
    · cases hc : r.commits with
      | error e =>
        rw [csLoop]
        simp only [hr, Bool.not_true, Bool.false_eq_true, if_false, hc]
        rw [ih]
        simp [csClosed, List.takeWhile_cons, hr, hc, List.countP_cons]
        omega
      | ok cs =>
        rw [csLoop]
        simp only [hr, Bool.not_true, Bool.false_eq_true, if_false, hc]
        rw [ih]
        simp [csClosed, List.takeWhile_cons, hr, hc, List.countP_cons]
        omega
    · rw [csLoop]
      simp only [Bool.not_eq_true] at hr
      simp [hr, csClosed, List.takeWhile_cons]

/-- The loop of `get_contribution_style` computes the closed form. -/
theorem csLoop_closed (repos : List RepoS) :
    csLoop repos ⟨0, 0, 0, 0, [], []⟩ = csClosed repos := by
  rw [csLoop_acc]
  simp

theorem counterAdd_lookup (c : List (String × Nat)) (k : String) (v : Nat) (k' : String) :
    (counterAdd c k v).lookup k' =
      if k' = k then some (((c.lookup k').getD 0) + v) else c.lookup k' := by
  induction c with
  | nil =>
    by_cases h : k' = k
    · simp [counterAdd, List.lookup, h]
    · have hb : (k' == k) = false := by simp [h]
      simp [counterAdd, List.lookup, h, hb]
  | cons e rest ih =>
    obtain ⟨a, b⟩ := e
    by_cases hak : a = k
    · subst hak
      by_cases h : k' = a
      · subst h; simp [counterAdd, List.lookup]
      · have hb : (k' == a) = false := by simp [h]
        simp [counterAdd, List.lookup, hb, h]
    · have hbak : (a = k) = False := by simp [hak]
      by_cases h : k' = a
      · subst h
        have hkk : (k' = k) = False := by simp [hak]
        simp [counterAdd, List.lookup, hak, ih, hkk]
      · have hb : (k' == a) = false := by simp [h]
        simp [counterAdd, List.lookup, hak, hb, ih]

theorem counterAdd_sum (c : List (String × Nat)) (k : String) (v : Nat) :
    ((counterAdd c k v).map (·.2)).sum = (c.map (·.2)).sum + v := by
  induction c with
  | nil => simp [counterAdd]
  | cons e rest ih =>
    obtain ⟨a, b⟩ := e
    by_cases h : a = k <;> simp [counterAdd, h, ih] <;> omega

theorem counterFold_lookup (ls : List (String × Nat)) (c : List (String × Nat)) (k' : String) :
    ((ls.foldl (fun acc p => counterAdd acc p.1 p.2) c).lookup k').getD 0 =
      ((c.lookup k').getD 0) + ((ls.filter (fun p => p.1 = k')).map (·.2)).sum := by
  induction ls generalizing c with
  | nil => simp
  | cons p ps ih =>
    rw [List.foldl_cons, ih]
    rw [counterAdd_lookup]
    by_cases h : k' = p.1
    · have : (p.1 = k') = True := by simp [h]
      simp [h, this]
      omega
    · have : (p.1 = k') = False := by simp [Ne.symm h]
      simp [h, this]

theorem counterFold_sum (ls : List (String × Nat)) (c : List (String × Nat)) :
    (((ls.foldl (fun acc p => counterAdd acc p.1 p.2) c).map (·.2)).sum) =
      ((c.map (·.2)).sum) + ((ls.map (·.2)).sum) := by
  induction ls generalizing c with
  | nil => simp
  | cons p ps ih =>
    rw [List.foldl_cons, ih, counterAdd_sum]
    simp only [List.map_cons, List.sum_cons]
    omega

/-- `get_language_distribution`'s loop raises exactly when some
repository inside the window has a failing language fetch. -/
theorem ldLoop_error_iff (repos : List RepoL) (c : List (String × Nat)) :
    ldLoop repos c = .error () ↔
      ∃ r ∈ repos.takeWhile (·.recent), r.langs = .error () := by
  induction repos generalizing c with
  | nil => simp [ldLoop]
  | cons r rs ih =>
    by_cases hr : r.recent
    · cases hl : r.langs with
      | error e =>
        cases e
        rw [ldLoop]
        simp [hr, hl, List.takeWhile_cons]
      | ok ls =>
        rw [ldLoop]
        simp only [hr, Bool.not_true, Bool.false_eq_true, if_false, hl]
        rw [ih]
        simp [List.takeWhile_cons, hr, hl]
    · rw [ldLoop]
      simp only [Bool.not_eq_true] at hr
      simp [hr, List.takeWhile_cons]

/-- The flattened language data of the repositories inside the window. -/
def ldFlat (repos : List RepoL) : List (String × Nat) :=
  (repos.takeWhile (·.recent)).flatMap fun r =>
    match r.langs with
    | .ok ls => ls
    | .error _ => []

/-- Under a successful run, the loop's counter holds, for every language,
the total byte count over the repositories inside the window, and its
values sum to the flattened total. -/
theorem ldLoop_ok_spec (repos : List RepoL) (c c' : List (String × Nat))
    (h : ldLoop repos c = .ok c') :
    (∀ k, ((c'.lookup k).getD 0) =
        ((c.lookup k).getD 0) + (((ldFlat repos).filter (fun p => p.1 = k)).map (·.2)).sum) ∧
    ((c'.map (·.2)).sum = (c.map (·.2)).sum + ((ldFlat repos).map (·.2)).sum) := by
  induction repos generalizing c with
  | nil =>
    rw [ldLoop] at h
    cases h
    simp [ldFlat]
  | cons r rs ih =>
    by_cases hr : r.recent
    · cases hl : r.langs with
      | error e =>
        rw [ldLoop] at h
        simp [hr, hl] at h
      | ok ls =>
        rw [ldLoop] at h
        simp only [hr, Bool.not_true, Bool.false_eq_true, if_false, hl] at h
        obtain ⟨ih1, ih2⟩ := ih _ h
        constructor
        · intro k
          rw [ih1 k, counterFold_lookup]
          simp [ldFlat, List.takeWhile_cons, hr, hl, List.filter_append]
          omega
        · rw [ih2, counterFold_sum]
          simp [ldFlat, List.takeWhile_cons, hr, hl]
          omega
    · rw [ldLoop] at h
      simp only [Bool.not_eq_true] at hr
      simp only [hr, Bool.not_false, if_true] at h
      cases h
      simp [ldFlat, List.takeWhile_cons, hr]

theorem sum_div_mul (c : List (String × Nat)) (T : Rat) :
    (c.map fun p => ((p.2 : Rat) / T) * 100).sum =
      (((c.map (·.2)).sum : Nat) : Rat) / T * 100 := by
  induction c with
  | nil => simp
  | cons p ps ih =>
    simp only [List.map_cons, List.sum_cons, ih]
    push_cast
    ring

/-- The flattened commit-day data of `get_commit_cadence`: the commits of
every selected repository whose fetch succeeded. -/
def kDays (repos : List RepoK) (names : List String) : List Int :=
  (repos.filter fun r => decide (r.name ∈ names)).flatMap fun r =>
    match r.commits with
    | .ok ds => ds
    | .error _ => []

theorem dailyAdd_lookup (daily : List (Int × Nat)) (d d' : Int) :
    ((dailyAdd daily d).lookup d').getD 0 =
      ((daily.lookup d').getD 0) + (if d' = d then 1 else 0) := by
  induction daily with
  | nil =>
    by_cases h : d' = d
    · simp [dailyAdd, List.lookup, h]
    · have hb : (d' == d) = false := by simp [h]
      simp [dailyAdd, List.lookup, h, hb]
  | cons e rest ih =>
    obtain ⟨a, n⟩ := e
    by_cases had : a = d
    · subst had
      by_cases h : d' = a
      · subst h; simp [dailyAdd, List.lookup]
      · have hb : (d' == a) = false := by simp [h]
        simp [dailyAdd, List.lookup, hb, h]
    · by_cases h : d' = a
      · subst h
        have hb : (d' = d) = False := by simp [had]
        simp [dailyAdd, had, List.lookup, hb]
      · have hb : (d' == a) = false := by simp [h]
        simp [dailyAdd, had, List.lookup, hb, ih]

theorem dailyAdd_ne_nil (daily : List (Int × Nat)) (d : Int) :
    dailyAdd daily d ≠ [] := by
  cases daily with
  | nil => simp [dailyAdd]
  | cons e rest =>
    obtain ⟨a, n⟩ := e
    by_cases h : a = d <;> simp [dailyAdd, h]

theorem foldl_dailyAdd_lookup (ds : List Int) (daily : List (Int × Nat)) (d' : Int) :
    ((ds.foldl dailyAdd daily).lookup d').getD 0 =
      ((daily.lookup d').getD 0) + ds.count d' := by
  induction ds generalizing daily with
  | nil => simp
  | cons d rest ih =>
    rw [List.foldl_cons, ih, dailyAdd_lookup]
    rw [List.count_cons]
    by_cases h : d' = d
    · have : (d == d') = true := by simp [h]
      simp [h, this]
      omega
    · have : (d == d') = false := by simp [Ne.symm h]
      simp [h, this]

theorem foldl_dailyAdd_nil_iff (ds : List Int) (daily : List (Int × Nat)) :
    ds.foldl dailyAdd daily = [] ↔ daily = [] ∧ ds = [] := by
  induction ds generalizing daily with
  | nil => simp
  | cons d rest ih =>
    rw [List.foldl_cons, ih]
    simp [dailyAdd_ne_nil]

theorem kLoop_spec (repos : List RepoK) (names : List String)
    (daily : List (Int × Nat)) (total : Nat) :
    (kLoop repos names (daily, total)).2 = total + (kDays repos names).length ∧
    (∀ d, (((kLoop repos names (daily, total)).1.lookup d).getD 0) =
      ((daily.lookup d).getD 0) + (kDays repos names).count d) ∧
    ((kLoop repos names (daily, total)).1 = [] ↔ daily = [] ∧ kDays repos names = []) := by
  induction repos generalizing daily total with
  | nil => simp [kLoop, kDays]
  | cons r rs ih =>
    by_cases hn : r.name ∈ names
    · cases hc : r.commits with
      | error e =>
        rw [kLoop, if_neg (not_not_intro hn)]
        simp only [hc]
        have h := ih daily total
        simpa [kDays, List.filter_cons, hn, hc] using h
      | ok ds =>
        rw [kLoop, if_neg (not_not_intro hn)]
        simp only [hc]
        have h := ih (ds.foldl dailyAdd daily) (total + ds.length)
        obtain ⟨h1, h2, h3⟩ := h
        refine ⟨?_, fun d => ?_, ?_⟩
        · rw [h1]
          simp [kDays, List.filter_cons, hn, hc]
          omega
        · rw [h2 d, foldl_dailyAdd_lookup]
          simp [kDays, List.filter_cons, hn, hc, List.count_append]
          omega
        · rw [h3, foldl_dailyAdd_nil_iff]
          simp [kDays, List.filter_cons, hn, hc]
          tauto
    · rw [kLoop, if_pos hn]
      have h := ih daily total
      simpa [kDays, List.filter_cons, hn] using h

/-- The jitter never touches the character traits. -/
theorem applyJitter_traits (s : StyleElements) (r : RandSrc) :
    (applyJitter s r).1.character_traits = s.character_traits := by
  unfold applyJitter
  dsimp only
  split
  · rfl
  · split <;> rfl

theorem jitter_ite_traits (c : Prop) [Decidable c] (s : StyleElements) (r' : RandSrc) :
    ((if c then applyJitter s r' else (s, r')).1).character_traits = s.character_traits := by
  split
  · exact applyJitter_traits s r'
  · rfl

/-- The character traits selected by `get_weighted_style_elements` come
only from the `activity_level` branch. -/
theorem gwse_traits (profile : JVal) (randomness : Rat) (r : RandSrc) :
    ((getWeightedStyleElements profile randomness r).1).character_traits =
      (match (((jget profile "commit_cadence").bind (jget · "activity_level")).bind jstr?).bind
          (fun a => ACTIVITY_CHARACTER_MAP.lookup a) with
       | some ts => ts
       | none => []) := by
  unfold getWeightedStyleElements
  dsimp only
  rw [jitter_ite_traits]

/-!
## Claims C4 and C5
-/

/-- C4: `get_language_distribution` returns, for repositories updated
within the window, a mapping from each language to
`(its byte count / total byte count) * 100`; it returns the empty mapping
when the total byte count is zero, and otherwise the returned percentages
sum to 100. -/
theorem claim_C4_language_distribution (repos : List RepoL) (c : List (String × Nat))
    (hc : ldLoop repos [] = .ok c) :
    ((c.map (·.2)).sum = 0 → getLanguageDistribution repos = .ok []) ∧
    ((c.map (·.2)).sum ≠ 0 →
      getLanguageDistribution repos =
        .ok (c.map fun p => (p.1, ((p.2 : Rat) / (((c.map (·.2)).sum : Nat)) * 100))) ∧
      (c.map fun p => ((p.2 : Rat) / (((c.map (·.2)).sum : Nat)) * 100)).sum = 100) ∧
    (∀ k, (c.lookup k).getD 0 =
      (((ldFlat repos).filter (fun p => p.1 = k)).map (·.2)).sum) := by
  obtain ⟨hlook, _hsum⟩ := ldLoop_ok_spec repos [] c hc
  refine ⟨fun h0 => ?_, fun hne => ⟨?_, ?_⟩, fun k => ?_⟩
  · simp [getLanguageDistribution, hc, h0, Bind.bind, Except.bind, pure, Except.pure]
  · simp [getLanguageDistribution, hc, hne, Bind.bind, Except.bind, pure, Except.pure,
      Function.comp]
  · have hS : (((c.map (·.2)).sum : Nat) : Rat) ≠ 0 := by exact_mod_cast hne
    rw [sum_div_mul, div_self hS, one_mul]
  · simpa using hlook k

/-- Witness for C4 at a concrete repository list: two in-window
repositories totalling 50 bytes, 40 of them Python. -/
theorem claim_C4_witness :
    getLanguageDistribution
        [⟨true, .ok [("Python", 30), ("C", 10)]⟩, ⟨true, .ok [("Python", 10)]⟩] =
      .ok [("Python", 80), ("C", 20)] := by
  have h := (claim_C4_language_distribution
      [⟨true, .ok [("Python", 30), ("C", 10)]⟩, ⟨true, .ok [("Python", 10)]⟩]
      [("Python", 40), ("C", 10)] rfl).2.1 (by norm_num)
  rw [h.1]
  norm_num

/-- Compute a round-half-to-even value from its floor when the
fractional part is below one half. -/
theorem roundHalfEven_of_floor (q : Rat) (f : Int) (hf : ⌊q⌋ = f)
    (hlt : q - f < 1/2) : roundHalfEven q = f := by
  unfold roundHalfEven
  dsimp only
  rw [hf, if_pos hlt]

/-- Counterexample for C5 as stated: one commit in a 90-day window makes
the code return `round(1/90, 3) = 0.011`, which is not
`total_commits / days_window = 1/90`. -/
theorem claim_C5_counterexample :
    (jget (getCommitCadence [⟨"a", .ok [5]⟩] ["a"] 90) "frequency").bind jnum?
        = some (11/1000) ∧
    (11/1000 : Rat) ≠ (1 : Rat) / 90 := by
  have hfloor : ⌊(((1 : Nat) : Rat) / ((90 : Nat) : Rat)) * 10 ^ 3⌋ = 11 := by
    rw [Int.floor_eq_iff]
    constructor <;> norm_num
  have hfrac : (((1 : Nat) : Rat) / ((90 : Nat) : Rat)) * 10 ^ 3 - ((11 : Int) : Rat) < 1/2 := by
    push_cast
    norm_num
  have hround : pyRound (((1 : Nat) : Rat) / ((90 : Nat) : Rat)) 3 = 11/1000 := by
    unfold pyRound
    rw [roundHalfEven_of_floor _ 11 hfloor hfrac]
    norm_num
  constructor
  · have hbase : (jget (getCommitCadence [⟨"a", .ok [5]⟩] ["a"] 90) "frequency").bind jnum?
        = some (pyRound (((1 : Nat) : Rat) / ((90 : Nat) : Rat)) 3) := rfl
    rw [hbase, hround]
  · norm_num

/-- C5 (amended): the returned `frequency` is `total_commits/days_window`
rounded to 3 decimals and `consistency` is `1/(1 + variance)` rounded to
3 decimals when there is more than one active day (hence, after rounding,
at least 0 and at most 1), `0.5` with exactly one active day, and the
fixed zero record when no commits are found; the per-day counts are the
day multiplicities of the fetched commits. -/
theorem claim_C5_commit_cadence (repos : List RepoK) (names : List String) (days : Nat) :
    (∀ d, (((kLoop repos names ([], 0)).1.lookup d).getD 0) = (kDays repos names).count d) ∧
    (kDays repos names = [] →
      getCommitCadence repos names days =
        .obj [("frequency", .num 0), ("consistency", .num 0), ("total_commits", .num 0)]) ∧
    (kDays repos names ≠ [] →
      ((jget (getCommitCadence repos names days) "frequency").bind jnum?
          = some (pyRound (((kDays repos names).length : Rat) / (days : Nat)) 3)) ∧
      ((jget (getCommitCadence repos names days) "total_commits").bind jnum?
          = some ((kDays repos names).length : Rat)) ∧
      ((kLoop repos names ([], 0)).1.length = 1 →
        (jget (getCommitCadence repos names days) "consistency").bind jnum? = some (1/2)) ∧
      (1 < (kLoop repos names ([], 0)).1.length →
        (jget (getCommitCadence repos names days) "consistency").bind jnum?
          = some (pyRound (1 / (1 + cadenceVariance ((kLoop repos names ([], 0)).1.map (·.2)))) 3) ∧
        ∀ q, (jget (getCommitCadence repos names days) "consistency").bind jnum? = some q →
          0 ≤ q ∧ q ≤ 1)) := by
  obtain ⟨hTot, hLook, hNil⟩ := kLoop_spec repos names [] 0
  have hvar : 0 ≤ cadenceVariance ((kLoop repos names ([], 0)).1.map (·.2)) := by
    unfold cadenceVariance
    apply div_nonneg
    · apply List.sum_nonneg
      intro y hy
      obtain ⟨x, _, rfl⟩ := List.mem_map.mp hy
      positivity
    · positivity
  refine ⟨fun d => by simpa using hLook d, fun h0 => ?_, fun hne => ?_⟩
  · have hd : (kLoop repos names ([], 0)).1 = [] := by
      rw [hNil]; exact ⟨rfl, h0⟩
    simp [getCommitCadence, hd]
  · have hd : ¬ (kLoop repos names ([], 0)).1 = [] := by
      rw [hNil]; rintro ⟨-, h⟩; exact hne h
    have hlen : 0 < (kLoop repos names ([], 0)).1.length := List.length_pos.mpr hd
    have hdE : ((kLoop repos names ([], 0)).1.isEmpty) = false := by
      simp [List.isEmpty_iff, hd]
    have htot2 : (kLoop repos names ([], 0)).2 = (kDays repos names).length := by
      simpa using hTot
    refine ⟨?_, ?_, fun h1 => ?_, fun h2 => ⟨?_, fun q hq => ?_⟩⟩
    · simp [getCommitCadence, hdE, jget, List.lookup, htot2, jnum?]
    · simp [getCommitCadence, hdE, jget, List.lookup, htot2, jnum?]
    · have hc : ¬ (1 < (kLoop repos names ([], 0)).1.length) := by omega
      have htpos : 0 < (kLoop repos names ([], 0)).2 := by
        rw [htot2]
        have : kDays repos names ≠ [] := hne
        have := List.length_pos.mpr this
        omega
      have hround : pyRound (1/2 : Rat) 3 = 1/2 := by
        have hf : ⌊((1 : Rat)/2) * 10 ^ 3⌋ = 500 := by
          rw [Int.floor_eq_iff]
          constructor <;> norm_num
        have hl : ((1 : Rat)/2) * 10 ^ 3 - ((500 : Int) : Rat) < 1/2 := by push_cast; norm_num
        unfold pyRound
        rw [roundHalfEven_of_floor _ 500 hf hl]
        norm_num
      simp [getCommitCadence, hdE, jget, List.lookup, hc, htpos, jnum?]
      simpa [one_div] using hround
    · simp [getCommitCadence, hdE, jget, List.lookup, h2, jnum?]
    · have hcons : q = pyRound (1 / (1 + cadenceVariance ((kLoop repos names ([], 0)).1.map (·.2)))) 3 := by
        have := hq
        simp [getCommitCadence, hdE, jget, List.lookup, h2, jnum?] at this
        rw [← one_div] at this
        exact this.symm
      subst hcons
      constructor
      · exact pyRound_nonneg _ _ (by positivity)
      · apply pyRound_le_one
        rw [div_le_one (by linarith)]
        linarith

/-- Witness for C5 (amended) at a concrete input: three commits on two
days. -/
theorem claim_C5_witness :
    kDays [⟨"a", .ok [5, 5, 6]⟩] ["a"] ≠ [] ∧
    (jget (getCommitCadence [⟨"a", .ok [5, 5, 6]⟩] ["a"] 90) "frequency").bind jnum?
      = some (pyRound (((kDays [⟨"a", .ok [5, 5, 6]⟩] ["a"]).length : Rat) / ((90 : Nat) : Rat)) 3) ∧
    (((kLoop [⟨"a", .ok [5, 5, 6]⟩] ["a"] ([], 0)).1.lookup 5).getD 0)
      = (kDays [⟨"a", .ok [5, 5, 6]⟩] ["a"]).count 5 := by
  have h := claim_C5_commit_cadence [⟨"a", .ok [5, 5, 6]⟩] ["a"] 90
  exact ⟨by decide, (h.2.2 (by decide)).1, h.1 5⟩

/-!
## Claim C3
-/

/-- The four style scores of `get_contribution_style` (lines 207-225),
recomputed from the closed-form counters: the fixed linear weightings of
the claim. -/
def styleScoresClosed (repos : List RepoS) : List (String × Rat) :=
  let pr := repos.takeWhile (·.recent)
  let msgs := (csClosed repos).commitMessages
  let sizes := (csClosed repos).commitSizes
  let ratio : Rat := (msgs.countP matchConventional : Rat) / (max msgs.length 1 : Nat)
  let avgMsg : Rat := ((msgs.map String.length).sum : Rat) / (max msgs.length 1 : Nat)
  let avgSize : Rat := (sizes.sum : Rat) / (max sizes.length 1 : Nat)
  let total : Rat := (pr.length : Nat)
  [("Solo Creator", ((pr.countP (·.own) : Rat) / total) * (7/10)
      + (1 - (pr.countP (·.fork) : Rat) / total) * (3/10)),
   ("Collaborator", ((pr.countP (·.fork) : Rat) / total) * (6/10)
      + (min (((csClosed repos).totalCommits : Rat) / 50) 1) * (4/10)),
   ("Architect", (min (avgSize / 5) 1) * (4/10) + (min (avgMsg / 50) 1) * (3/10)
      + ratio * (3/10)),
   ("Refined Developer", ratio * (6/10) + (1 - |avgSize - 3| / 10) * (4/10))]

/-- C3: `get_contribution_style` classifies each lower-cased commit
message with the conventional-commits regular expression to get a ratio,
computes the four style scores as the fixed linear weightings of its
counters (with the plain `own/total` and `fork/total` divisions whenever
at least one repository is inside the window), and returns as
`primary_style` a label of maximal score from the fixed four-label set. -/
theorem claim_C3_contribution_style (repos : List RepoS)
    (h : repos.takeWhile (·.recent) ≠ []) :
    jget (getContributionStyle repos) "style_scores" =
      some (.obj ((styleScoresClosed repos).map fun p => (p.1, .num p.2))) ∧
    (jfields (jget (getContributionStyle repos) "metrics")).lookup
        "conventional_commits_ratio" =
      some (.num (pyRound (((csClosed repos).commitMessages.countP matchConventional : Rat)
        / (max (csClosed repos).commitMessages.length 1 : Nat)) 2)) ∧
    (∃ p v, jget (getContributionStyle repos) "primary_style" = some (.str p) ∧
      (p, v) ∈ styleScoresClosed repos ∧
      p ∈ ["Solo Creator", "Collaborator", "Architect", "Refined Developer"] ∧
      ∀ q ∈ styleScoresClosed repos, q.2 ≤ v) := by
  have hlen : 0 < (repos.takeWhile (·.recent)).length := List.length_pos.mpr h
  have hmax : (max (csClosed repos).totalRepos 1) = (csClosed repos).totalRepos := by
    simp only [csClosed]
    omega
  have hmain : getContributionStyle repos =
      .obj
        [("primary_style", .str (pyMaxKey (styleScoresClosed repos))),
         ("style_scores", .obj ((styleScoresClosed repos).map fun p => (p.1, .num p.2))),
         ("metrics", .obj
           [("total_commits", .num ((csClosed repos).totalCommits)),
            ("total_repos", .num ((csClosed repos).totalRepos)),
            ("own_repos", .num ((csClosed repos).ownRepos)),
            ("fork_repos", .num ((csClosed repos).forkRepos)),
            ("avg_commit_size", .num (pyRound (((csClosed repos).commitSizes.sum : Rat)
              / (max (csClosed repos).commitSizes.length 1 : Nat)) 1)),
            ("avg_msg_length", .num (pyRound ((((csClosed repos).commitMessages.map String.length).sum : Rat)
              / (max (csClosed repos).commitMessages.length 1 : Nat)) 1)),
            ("conventional_commits_ratio", .num (pyRound
              (((csClosed repos).commitMessages.countP matchConventional : Rat)
                / (max (csClosed repos).commitMessages.length 1 : Nat)) 2))])] := by
    unfold getContributionStyle
    rw [csLoop_closed]
    simp only [hmax]
    simp only [styleScoresClosed, csClosed]
  refine ⟨?_, ?_, ?_⟩
  · rw [hmain]
    simp [jget, List.lookup]
  · rw [hmain]
    simp [jget, List.lookup, jfields]
  · have hnem : styleScoresClosed repos ≠ [] := by simp [styleScoresClosed]
    obtain ⟨v, hv, hbound⟩ := pyMaxKey_spec (styleScoresClosed repos) hnem
    refine ⟨pyMaxKey (styleScoresClosed repos), v, ?_, hv, ?_, hbound⟩
    · rw [hmain]
      simp [jget, List.lookup]
    · have hm := List.mem_map_of_mem Prod.fst hv
      have hkeys : (styleScoresClosed repos).map Prod.fst =
          ["Solo Creator", "Collaborator", "Architect", "Refined Developer"] := by
        simp [styleScoresClosed]
      exact hkeys ▸ hm

/-- Witness for C3 at a concrete input: one own, non-fork in-window
repository with one conventional commit. -/
theorem claim_C3_witness :
    ([⟨true, true, false, .ok [⟨"feat: x", some 3⟩]⟩] : List RepoS).takeWhile (·.recent) ≠ [] ∧
    jget (getContributionStyle [⟨true, true, false, .ok [⟨"feat: x", some 3⟩]⟩]) "style_scores" =
      some (.obj ((styleScoresClosed [⟨true, true, false, .ok [⟨"feat: x", some 3⟩]⟩]).map
        fun p => (p.1, .num p.2))) := by
  have hne : ([⟨true, true, false, .ok [⟨"feat: x", some 3⟩]⟩] : List RepoS).takeWhile (·.recent) ≠ [] := by
    simp [List.takeWhile]
  exact ⟨hne, (claim_C3_contribution_style _ hne).1⟩

/-!
## Claim C2
-/

/-- The world of the C2 counterexample: one in-window repository whose
`get_languages` call raises. -/
def c2World : World :=
  { userFound := true
    reposL := [⟨true, .error ()⟩]
    reposS := []
    reposK := []
    first10RepoNames := []
    reposO := .ok []
    domainFocus := []
    debugInfo := .null
    highProfile := .null
    fbFocus := .null
    collaborationProfile := .null
    codeStyleProfile := .null
    lastUpdated := ""
    rng := ⟨[], []⟩ }

/-- Counterexample for C2 as stated: a failure while fetching one
repository's languages inside `get_language_distribution` is not caught
and escapes `analyze_user_profile`, so that analysis run aborts instead
of producing a degraded profile. -/
theorem claim_C2_counterexample :
    getLanguageDistribution [⟨true, .error ()⟩] = .error () ∧
    analyzeUserProfile "alice" c2World 90 = .raised := by
  exact ⟨rfl, rfl⟩

/-- C2 (amended): every embedded per-repository sub-analysis except
`get_language_distribution` catches a failure on a single repository and
skips that item — the result is as if the repository had contributed no
commits — while `get_language_distribution` has no handler: it raises
exactly when some in-window repository's language fetch raises, and on a
non-legend run `analyze_user_profile` raises exactly then. -/
theorem claim_C2_degraded_analysis :
    (∀ (pre post : List RepoS) (r : RepoS), r.commits = .error () →
      getContributionStyle (pre ++ r :: post) =
        getContributionStyle (pre ++ { r with commits := .ok [] } :: post)) ∧
    (∀ (pre post : List RepoK) (r : RepoK) (names : List String) (days : Nat),
      r.commits = .error () →
      getCommitCadence (pre ++ r :: post) names days =
        getCommitCadence (pre ++ { r with commits := .ok [] } :: post) names days) ∧
    (∀ repos : List RepoL, getLanguageDistribution repos = .error () ↔
      ∃ r ∈ repos.takeWhile (·.recent), r.langs = .error ()) ∧
    (∀ (u : String) (w : World) (days : Nat), w.userFound = true →
      lowerStr u ≠ "torvalds" →
      (analyzeUserProfile u w days = .raised ↔
        getLanguageDistribution w.reposL = .error ())) := by
  have csKey : ∀ (pre post : List RepoS) (r : RepoS) (acc : CSAcc), r.commits = .error () →
      csLoop (pre ++ r :: post) acc = csLoop (pre ++ { r with commits := .ok [] } :: post) acc := by
    intro pre post r acc hr
    induction pre generalizing acc with
    | nil =>
      simp only [List.nil_append]
      rw [csLoop, csLoop]
      by_cases hrec : r.recent
      · simp [hrec, hr]
      · simp [hrec]
    | cons x xs ih =>
      simp only [List.cons_append]
      rw [csLoop, csLoop]
      by_cases hrec : x.recent
      · simp only [hrec, Bool.not_true, Bool.false_eq_true, if_false]
        cases x.commits <;> exact ih _
      · simp [hrec]
  have kKey : ∀ (pre post : List RepoK) (r : RepoK) (names : List String)
      (daily : List (Int × Nat)) (total : Nat), r.commits = .error () →
      kLoop (pre ++ r :: post) names (daily, total) =
        kLoop (pre ++ { r with commits := .ok [] } :: post) names (daily, total) := by
    intro pre post r names daily total hr
    induction pre generalizing daily total with
    | nil =>
      simp only [List.nil_append]
      rw [kLoop, kLoop]
      by_cases hn : r.name ∈ names
      · rw [if_neg (not_not_intro hn), if_neg (not_not_intro hn)]
        simp [hr]
      · rw [if_pos hn, if_pos hn]
    | cons x xs ih =>
      simp only [List.cons_append]
      rw [kLoop, kLoop]
      by_cases hn : x.name ∈ names
      · rw [if_neg (not_not_intro hn), if_neg (not_not_intro hn)]
        cases x.commits <;> exact ih _ _
      · rw [if_pos hn, if_pos hn]
        exact ih daily total
  have ldIff : ∀ repos : List RepoL, getLanguageDistribution repos = .error () ↔
      ldLoop repos [] = .error () := by
    intro repos
    cases hld : ldLoop repos [] with
    | error e =>
      cases e
      simp [getLanguageDistribution, hld, Bind.bind, Except.bind]
    | ok c =>
      simp only [getLanguageDistribution, hld, Bind.bind, Except.bind]
      split <;> simp [pure, Except.pure]
  refine ⟨?_, ?_, fun repos => ?_, fun u w days hfound hneq => ?_⟩
  · intro pre post r hr
    unfold getContributionStyle
    rw [csKey pre post r _ hr]
  · intro pre post r names days hr
    unfold getCommitCadence
    rw [kKey pre post r names [] 0 hr]
  · rw [ldIff]
    exact ldLoop_error_iff repos []
  · cases hld : getLanguageDistribution w.reposL with
    | error e =>
      cases e
      simp [analyzeUserProfile, hfound, hneq, hld]
    | ok ld =>
      simp [analyzeUserProfile, hfound, hneq, hld]

/-- Witness for C2 (amended) at concrete inputs. -/
theorem claim_C2_witness :
    getContributionStyle [⟨true, true, false, .error ()⟩] =
      getContributionStyle [⟨true, true, false, .ok []⟩] ∧
    (getLanguageDistribution [⟨true, .error ()⟩] = .error () ↔
      ∃ r ∈ ([⟨true, .error ()⟩] : List RepoL).takeWhile (·.recent), r.langs = .error ()) ∧
    (analyzeUserProfile "bob" c2World 90 = .raised ↔
      getLanguageDistribution c2World.reposL = .error ()) := by
  refine ⟨?_, ?_, ?_⟩
  · exact claim_C2_degraded_analysis.1 [] [] ⟨true, true, false, .error ()⟩ rfl
  · exact claim_C2_degraded_analysis.2.2.1 [⟨true, .error ()⟩]
  · exact claim_C2_degraded_analysis.2.2.2 "bob" c2World 90 rfl (by decide)

/-!
## Claim C1
-/

/-- `get_contribution_style` run in a `random`-module state: the source
makes no call into `random`, so the state passes through unchanged. -/
def runContributionStyle (repos : List RepoS) (r : RandSrc) : JVal × RandSrc :=
  (getContributionStyle repos, r)

/-- `get_commit_cadence` run in a `random`-module state (no random calls). -/
def runCommitCadence (repos : List RepoK) (names : List String) (days : Nat)
    (r : RandSrc) : JVal × RandSrc :=
  (getCommitCadence repos names days, r)

/-- `analyze_code_originality` run in a `random`-module state (no random calls). -/
def runCodeOriginality (reposFetch : Except Unit (List RepoO)) (r : RandSrc) :
    JVal × RandSrc :=
  (analyzeCodeOriginality reposFetch, r)

/-- `classify_pr_type` run in a `random`-module state (no random calls). -/
def runClassifyPrType (pr : PRData) (r : RandSrc) : String × RandSrc :=
  (classifyPrType pr, r)

set_option maxRecDepth 65536 in
/-- C1: on fixed API inputs the heuristic scoring functions give equal
results on any two runs, whatever the state of the `random` module, while
`get_weighted_style_elements` and `generate_image_prompt` are genuinely
random: two runs can differ. -/
theorem claim_C1_determinism_and_randomness :
    (∀ (repos : List RepoS) (r₁ r₂ : RandSrc),
      (runContributionStyle repos r₁).1 = (runContributionStyle repos r₂).1) ∧
    (∀ (repos : List RepoK) (names : List String) (days : Nat) (r₁ r₂ : RandSrc),
      (runCommitCadence repos names days r₁).1 = (runCommitCadence repos names days r₂).1) ∧
    (∀ (reposFetch : Except Unit (List RepoO)) (r₁ r₂ : RandSrc),
      (runCodeOriginality reposFetch r₁).1 = (runCodeOriginality reposFetch r₂).1) ∧
    (∀ (pr : PRData) (r₁ r₂ : RandSrc),
      (runClassifyPrType pr r₁).1 = (runClassifyPrType pr r₂).1) ∧
    (∃ (profile : JVal) (randomness : Rat) (r₁ r₂ : RandSrc),
      (getWeightedStyleElements profile randomness r₁).1 ≠
        (getWeightedStyleElements profile randomness r₂).1) ∧
    (∃ (profile : JVal) (randomness : Rat) (r₁ r₂ : RandSrc),
      (generateImagePrompt profile none randomness r₁).1 ≠
        (generateImagePrompt profile none randomness r₂).1) := by
  refine ⟨fun _ _ _ => rfl, fun _ _ _ _ _ => rfl, fun _ _ _ => rfl, fun _ _ _ => rfl, ?_, ?_⟩
  · exact ⟨.obj [], 0, ⟨[0], []⟩, ⟨[1], []⟩, by decide⟩
  · exact ⟨.obj [], 0, ⟨[0], []⟩, ⟨[1], []⟩,
      fun hEq => absurd (congrArg String.length hEq) (by decide)⟩

/-!
## Claims C9 and C10
-/

/-- C9: for any username equal to `"torvalds"` ignoring case (and an
existing user), `analyze_user_profile` skips the statistic-gathering
sub-analyses and returns the fixed pre-defined profile — `is_legend`
true, `language_profile` `{"C": 100.0}`, `contribution_style`
`"Benevolent Dictator for Life"`, three hard-coded prompt variations at
randomness 0.0, 0.15 and 0.3 — while for every other username the
produced profile has no `is_legend` key. -/
theorem claim_C9_torvalds_easter_egg (u : String) (w : World) (days : Nat)
    (hfound : w.userFound = true) :
    (lowerStr u = "torvalds" →
      analyzeUserProfile u w days = .ok ⟨legendProfile, false⟩ ∧
      (jget legendProfile "is_legend").bind jbool? = some true ∧
      jget legendProfile "language_profile" = some (.obj [("C", .num 100)]) ∧
      jget legendProfile "contribution_style" =
        some (.str "Benevolent Dictator for Life") ∧
      ((jelems ((jget legendProfile "image_prompts").bind (jget · "variations"))).map
          fun v => (jget v "randomness_level").bind jnum?)
        = [some 0, some (15/100), some (3/10)]) ∧
    (lowerStr u ≠ "torvalds" → ∀ res, analyzeUserProfile u w days = .ok res →
      jget res.profile "is_legend" = none) := by
  constructor
  · intro hleg
    refine ⟨?_, rfl, rfl, rfl, rfl⟩
    unfold analyzeUserProfile
    simp [hfound, hleg]
  · intro hne res hok
    unfold analyzeUserProfile at hok
    rw [if_neg (by simp [hfound]), if_neg hne] at hok
    cases hld : getLanguageDistribution w.reposL with
    | error e =>
      rw [hld] at hok
      cases hok
    | ok ld =>
      rw [hld] at hok
      injection hok with h
      subst h
      rfl

/-- The world of the C9 witness runs: a found user with no activity. -/
def c9World : World :=
  { userFound := true
    reposL := []
    reposS := []
    reposK := []
    first10RepoNames := []
    reposO := .ok []
    domainFocus := []
    debugInfo := .null
    highProfile := .null
    fbFocus := .null
    collaborationProfile := .null
    codeStyleProfile := .null
    lastUpdated := ""
    rng := ⟨[], []⟩ }

/-- Witness for C9 at `"Torvalds"` (legend, case-insensitively) and
`"alice"` (no `is_legend` key). -/
theorem claim_C9_witness :
    analyzeUserProfile "Torvalds" c9World 90 = .ok ⟨legendProfile, false⟩ ∧
    (∀ res, analyzeUserProfile "alice" c9World 90 = .ok res →
      jget res.profile "is_legend" = none) := by
  have h1 := (claim_C9_torvalds_easter_egg "Torvalds" c9World 90 rfl).1 (by decide)
  have h2 := (claim_C9_torvalds_easter_egg "alice" c9World 90 rfl).2 (by decide)
  exact ⟨h1.1, h2⟩

/-- `jget` agrees with a lookup over `jfields`. -/
theorem jget_eq_jfields_lookup (v : JVal) (k : String) :
    jget v k = (jfields (some v)).lookup k := by
  cases v <;> rfl

/-- The cadence record is an object carrying only the four cadence keys,
never `time_of_day` or `activity_level`, and it is never empty. -/
theorem cadence_obj_shape (repos : List RepoK) (names : List String) (days : Nat) :
    jkeys (getCommitCadence repos names days) ⊆
      ["frequency", "consistency", "total_commits", "active_days"] ∧
    (jfields (some (getCommitCadence repos names days))).lookup "time_of_day" = none ∧
    (jfields (some (getCommitCadence repos names days))).lookup "activity_level" = none ∧
    (jfields (some (getCommitCadence repos names days))).isEmpty = false := by
  unfold getCommitCadence
  by_cases hd : ((kLoop repos names ([], 0)).1).isEmpty <;>
    simp [hd, jkeys, jget, jfields, List.lookup, List.subset_def]

/-- On a successful non-legend analysis, the profile's `commit_cadence`
entry is the `get_commit_cadence` record. -/
theorem analyze_ok_commit_cadence (u : String) (w : World) (days : Nat)
    (res : AnalyzeResult) (hne : lowerStr u ≠ "torvalds")
    (hok : analyzeUserProfile u w days = .ok res) :
    jget res.profile "commit_cadence" =
      some (getCommitCadence w.reposK w.first10RepoNames days) := by
  unfold analyzeUserProfile at hok
  cases hfound : w.userFound with
  | false =>
    rw [if_pos (by simp [hfound])] at hok
    cases hok
  | true =>
    rw [if_neg (by simp [hfound]), if_neg hne] at hok
    cases hld : getLanguageDistribution w.reposL with
    | error e =>
      rw [hld] at hok
      cases hok
    | ok ld =>
      rw [hld] at hok
      injection hok with h
      subst h
      rfl

/-- C10: the `commit_cadence` record carries only the keys `frequency`,
`consistency`, `total_commits` and `active_days` — never `time_of_day` or
`activity_level` — so every non-legend profile gets the default activity
text from `get_activity_description` and empty character traits from
`get_weighted_style_elements`. -/
theorem claim_C10_cadence_keys_defaults :
    (∀ (repos : List RepoK) (names : List String) (days : Nat),
      jkeys (getCommitCadence repos names days) ⊆
        ["frequency", "consistency", "total_commits", "active_days"] ∧
      jget (getCommitCadence repos names days) "time_of_day" = none ∧
      jget (getCommitCadence repos names days) "activity_level" = none) ∧
    (∀ (u : String) (w : World) (days : Nat) (res : AnalyzeResult),
      lowerStr u ≠ "torvalds" → analyzeUserProfile u w days = .ok res →
      getActivityDescription res.profile =
        "Show the character working at their computer" ∧
      ∀ (randomness : Rat) (r : RandSrc),
        ((getWeightedStyleElements res.profile randomness r).1).character_traits = []) := by
  constructor
  · intro repos names days
    obtain ⟨hsub, ht, ha, hnem⟩ := cadence_obj_shape repos names days
    exact ⟨hsub, (jget_eq_jfields_lookup _ _).trans ht, (jget_eq_jfields_lookup _ _).trans ha⟩
  · intro u w days res hne hok
    have hcc := analyze_ok_commit_cadence u w days res hne hok
    obtain ⟨hsub, ht, ha, hnem⟩ := cadence_obj_shape w.reposK w.first10RepoNames days
    constructor
    · unfold getActivityDescription
      rw [hcc]
      simp [hnem, ht, ha, List.lookup]
    · intro randomness r
      rw [gwse_traits]
      have hnone : ((jget res.profile "commit_cadence").bind (jget · "activity_level")).bind jstr?
          = none := by
        rw [hcc]
        simp only [Option.some_bind]
        rw [jget_eq_jfields_lookup, ha]
        rfl
      simp [hnone]

/-- The world of the C10 witness run. -/
def c10World : World :=
  { userFound := true
    reposL := []
    reposS := []
    reposK := []
    first10RepoNames := []
    reposO := .ok []
    domainFocus := []
    debugInfo := .null
    highProfile := .null
    fbFocus := .null
    collaborationProfile := .null
    codeStyleProfile := .null
    lastUpdated := ""
    rng := ⟨[], []⟩ }

/-- Witness for C10 at a concrete cadence input and a concrete
non-legend analysis run. -/
theorem claim_C10_witness :
    jget (getCommitCadence [] [] 90) "time_of_day" = none ∧
    jget (getCommitCadence [] [] 90) "activity_level" = none ∧
    ∃ res, analyzeUserProfile "alice" c10World 90 = .ok res ∧
      getActivityDescription res.profile =
        "Show the character working at their computer" ∧
      ((getWeightedStyleElements res.profile 0 ⟨[], []⟩).1).character_traits = [] := by
  obtain ⟨res, hres⟩ : ∃ res, analyzeUserProfile "alice" c10World 90 = .ok res := ⟨_, rfl⟩
  have h2 := claim_C10_cadence_keys_defaults.2 "alice" c10World 90 res (by decide) hres
  exact ⟨(claim_C10_cadence_keys_defaults.1 [] [] 90).2.1,
    (claim_C10_cadence_keys_defaults.1 [] [] 90).2.2,
    res, hres, h2.1, h2.2 0 ⟨[], []⟩⟩

/-!
## Claims C6, C7 and C8
-/

/-- The generation tail of the single-user mode neither re-runs analysis
nor changes which profile is used. -/
theorem finishSingleUser_fields (profile : JVal) (ran profileOnly genSuccess : Bool)
    (fs : FS) :
    (finishSingleUser profile ran profileOnly genSuccess fs).ranAnalysis = ran ∧
    (finishSingleUser profile ran profileOnly genSuccess fs).profileUsed = some profile := by
  unfold finishSingleUser
  split <;> exact ⟨rfl, rfl⟩

/-- C6: the profile written by `analyze_user_profile` is read back equal
by `load_existing_profile` (JSON write/read round trip), and a run that
finds the cached profile uses it as-is without re-running analysis. -/
theorem claim_C6_profile_cache_roundtrip (fs : FS) (u : String) (v : JVal)
    (env : Env) (profileOnly genSuccess : Bool) (w : World) :
    loadExistingProfile (saveUserProfile fs u v) u = some v ∧
    (mainSingleUser env (saveUserProfile fs u v) u false profileOnly w genSuccess).ranAnalysis
      = false ∧
    (mainSingleUser env (saveUserProfile fs u v) u false profileOnly w genSuccess).profileUsed
      = some v := by
  have hload : loadExistingProfile (saveUserProfile fs u v) u = some v := by
    unfold loadExistingProfile saveUserProfile
    rw [fsWrite_lookup_self]
    exact jparse_jencode v
  have hrun : mainSingleUser env (saveUserProfile fs u v) u false profileOnly w genSuccess
      = finishSingleUser v false profileOnly genSuccess (saveUserProfile fs u v) := by
    unfold mainSingleUser
    simp [hload]
  rw [hrun]
  exact ⟨hload, (finishSingleUser_fields v false profileOnly genSuccess _).1,
    (finishSingleUser_fields v false profileOnly genSuccess _).2⟩

/-- C7: with `GITHUB_TOKEN` or `GEMINI_API_KEY` unset and no cached
profile, the single-user mode exits with status 1 before any analysis or
image generation, and interactive mode returns failure without calling
`analyze_user_profile`. -/
theorem claim_C7_missing_credentials_abort (env : Env) (fs : FS) (u : String)
    (forceRefresh profileOnly genSuccess useExisting : Bool) (w : World)
    (hmiss : env.githubToken = none ∨ env.geminiKey = none)
    (hnoprof : loadExistingProfile fs u = none) :
    mainSingleUser env fs u forceRefresh profileOnly w genSuccess
      = ⟨some 1, false, none, false, fs⟩ ∧
    interactiveMode env fs u useExisting w = .failed false := by
  constructor
  · unfold mainSingleUser
    have hcached : (if forceRefresh then none else loadExistingProfile fs u) = none := by
      cases forceRefresh <;> simp [hnoprof]
    rw [hcached]
    rcases hmiss with hg | hk
    · simp [hg]
    · cases hgt : env.githubToken with
      | none => simp
      | some t => simp [hk]
  · unfold interactiveMode
    rw [hnoprof]
    rcases hmiss with hg | hk
    · simp [hg]
    · cases hgt : env.githubToken with
      | none => simp
      | some t => simp [hk]

/-- Witness for C7: no GitHub token, a Gemini key, an empty profile
cache. -/
theorem claim_C7_witness :
    mainSingleUser ⟨none, some "k"⟩ [] "alice" false false
        ⟨true, [], [], [], [], .ok [], [], .null, .null, .null, .null, .null, "", ⟨[], []⟩⟩ true
      = ⟨some 1, false, none, false, []⟩ ∧
    interactiveMode ⟨none, some "k"⟩ [] "alice" true
        ⟨true, [], [], [], [], .ok [], [], .null, .null, .null, .null, .null, "", ⟨[], []⟩⟩
      = .failed false := by
  exact claim_C7_missing_credentials_abort ⟨none, some "k"⟩ [] "alice" false false true true
    ⟨true, [], [], [], [], .ok [], [], .null, .null, .null, .null, .null, "", ⟨[], []⟩⟩
    (Or.inl rfl) rfl

/-- C8: whenever image generation fails or raises — including an
unavailable Gemini client — `GitToImageCLI.generate_image` returns
failure and persists the full prompt text to
`{session_id}_{filename}_prompt.txt` in the output directory. -/
theorem claim_C8_prompt_fallback (g : ImageGenState) (raised : Option String)
    (prompt filename : String) (sessionId : Option String)
    (gensid fallbackSid now : String) (fs : TextFS)
    (hfail : (imageGenGenerate g prompt filename sessionId gensid now fs).1.1 = false
      ∨ raised.isSome = true) :
    (g.available = false →
      (imageGenGenerate g prompt filename sessionId gensid now fs).1.1 = false) ∧
    (cliGenerateImage g raised prompt filename sessionId gensid fallbackSid now fs).1 = false ∧
    ((cliGenerateImage g raised prompt filename sessionId gensid fallbackSid now fs).2).lookup
        ("generated_images/" ++ (sessionId.getD fallbackSid) ++ "_" ++ filename ++ "_prompt.txt")
      = some (promptFileContent (sessionId.getD fallbackSid) now filename prompt) ∧
    (∃ header, promptFileContent (sessionId.getD fallbackSid) now filename prompt
      = header ++ prompt) := by
  refine ⟨fun hna => by simp [imageGenGenerate, hna], ?_, ?_, ?_⟩
  · cases raised with
    | some e => rfl
    | none =>
      have hgen : (imageGenGenerate g prompt filename sessionId gensid now fs).1.1 = false := by
        rcases hfail with h | h
        · exact h
        · simp at h
      simp [cliGenerateImage, hgen]
  · cases raised with
    | some e =>
      simp [cliGenerateImage, savePromptFallback, tfsWrite_lookup_self]
    | none =>
      have hgen : (imageGenGenerate g prompt filename sessionId gensid now fs).1.1 = false := by
        rcases hfail with h | h
        · exact h
        · simp at h
      simp [cliGenerateImage, hgen, savePromptFallback, tfsWrite_lookup_self]
  · exact ⟨"Session ID: " ++ (sessionId.getD fallbackSid) ++ "\nGenerated: " ++ now
      ++ "\nFilename: " ++ filename ++ "\n" ++ String.mk (List.replicate 50 '=') ++ "\n\n", rfl⟩

/-- Witness for C8: an unavailable generator (no API key) with a raised
flag unset. -/
theorem claim_C8_witness :
    (cliGenerateImage ⟨false, none, false, .error "x"⟩ none "PROMPT" "alice_main"
        none "s1" "s2" "now" []).1 = false ∧
    ((cliGenerateImage ⟨false, none, false, .error "x"⟩ none "PROMPT" "alice_main"
        none "s1" "s2" "now" []).2).lookup
        ("generated_images/" ++ ((none : Option String).getD "s2") ++ "_" ++ "alice_main"
          ++ "_prompt.txt")
      = some (promptFileContent ((none : Option String).getD "s2") "now" "alice_main" "PROMPT") := by
  have h := claim_C8_prompt_fallback ⟨false, none, false, .error "x"⟩ none "PROMPT"
    "alice_main" none "s1" "s2" "now" [] (Or.inl rfl)
  exact ⟨h.2.1, h.2.2.1⟩
